import Mathlib

/-!
# Verification of the Corvus BMS core (corvus_bms.c and firmware/src)

A shallow embedding of the Corvus Orca battery-management-system core in
Lean 4.  C `double` arithmetic is modelled by exact rationals (`ℚ`); the
firmware's fixed-width integers are modelled by `ℕ`/`ℤ` with the source's
explicit guards.  Struct fields keep the C names.  String formatting of
fault messages (`snprintf` of readings into a bounded `char` buffer) is
abstracted to a list of message labels with the same dedup-on-append rule;
no claim below depends on the message text.
-/

namespace Corvus

/- ===================== constants (corvus_bms.h) ===================== -/

def BMS_SE_OVER_VOLTAGE_FAULT : ℚ := 4.225
def BMS_SE_UNDER_VOLTAGE_FAULT : ℚ := 3.000
def BMS_SE_OVER_TEMP_FAULT : ℚ := 65
def BMS_SE_OVER_VOLTAGE_WARNING : ℚ := 4.210
def BMS_SE_UNDER_VOLTAGE_WARNING : ℚ := 3.200
def BMS_SE_OVER_TEMP_WARNING : ℚ := 60
def BMS_SE_OV_WARN_CLEAR : ℚ := 4.190
def BMS_SE_UV_WARN_CLEAR : ℚ := 3.220
def BMS_SE_OT_WARN_CLEAR : ℚ := 57
def BMS_HW_SAFETY_OVER_VOLTAGE : ℚ := 4.300
def BMS_HW_SAFETY_UNDER_VOLTAGE : ℚ := 2.700
def BMS_HW_SAFETY_OVER_TEMP : ℚ := 70
def BMS_VOLTAGE_MATCH_PER_MODULE : ℚ := 1.2
def BMS_NUM_MODULES : ℤ := 22
def BMS_CELLS_PER_MODULE : ℤ := 14
def BMS_NOMINAL_CAPACITY_AH : ℚ := 128
def BMS_NUM_CELLS_SERIES : ℤ := BMS_NUM_MODULES * BMS_CELLS_PER_MODULE
def BMS_THERMAL_MASS : ℚ := 1268000
def BMS_THERMAL_COOLING_COEFF : ℚ := 800
def BMS_AMBIENT_TEMP : ℚ := 40
def BMS_PRECHARGE_DURATION : ℚ := 5
def BMS_WARNING_HOLD_TIME : ℚ := 10
def BMS_FAULT_RESET_HOLD_TIME : ℚ := 60
def BMS_COULOMBIC_EFFICIENCY : ℚ := 0.998
def BMS_MIN_TEMPERATURE : ℚ := -40
def BMS_MAX_TEMPERATURE : ℚ := 200
def BMS_MAX_DT : ℚ := 10
def BMS_FAULT_TIMER_DECAY_RATE : ℚ := 0.5
def BMS_MIN_CONDUCTANCE : ℚ := 1 / 10 ^ 12
def BMS_CURRENT_LIMIT_TOLERANCE : ℚ := 0.01
def BMS_MAX_PACKS : ℤ := 8

/- ===================== internal helpers ===================== -/

def clamp_d (x lo hi : ℚ) : ℚ :=
  if x < lo then lo else if x > hi then hi else x

def max_d (a b : ℚ) : ℚ := if a > b then a else b

def min_d (a b : ℚ) : ℚ := if a < b then a else b

/-- Downward scan for the bracketing index: the largest `i ≤ hi` with
`bp[i] ≤ x`, defaulting to `0`.  This is literally the loop
`for (i = hi; i >= 0; i--) if (bp[i] <= x) break;` of `bilinear_interp`;
because every breakpoint table is strictly increasing and `x` is
pre-clamped to `bp[0]`, it also computes exactly the bracket that
`linterp`'s binary search finds. -/
def bracket_go (bp : List ℚ) (x : ℚ) : ℕ → ℕ
  | 0 => 0
  | i + 1 => if bp.getD (i + 1) 0 ≤ x then i + 1 else bracket_go bp x i

def bracket_lo (bp : List ℚ) (x : ℚ) : ℕ :=
  bracket_go bp x (bp.length - 2)

/-- `linterp` from corvus_bms.c: clamp, bracket, linear interpolation. -/
def linterp (bp val : List ℚ) (x : ℚ) : ℚ :=
  let xc := clamp_d x (bp.getD 0 0) (bp.getD (bp.length - 1) 0)
  let lo := bracket_lo bp xc
  let span := bp.getD (lo + 1) 0 - bp.getD lo 0
  if span < 1 / 10 ^ 15 then val.getD lo 0
  else
    let frac := (xc - bp.getD lo 0) / span
    val.getD lo 0 + (val.getD (lo + 1) 0 - val.getD lo 0) * frac

/- ===================== resistance table ===================== -/

def r_temps : List ℚ := [-10, 0, 10, 25, 35, 45]

def r_socs : List ℚ := [0.05, 0.20, 0.35, 0.50, 0.65, 0.80, 0.95]

/-- mΩ per module, rows = SoC, cols = Temp. -/
def r_table : List (List ℚ) :=
  [ [15.3,  9.7,  6.2,  5,  4.4,  4.1],
    [10.9,  7.2,  4.7,  3.6,  3.3,  3.1],
    [ 9.9,  6.6,  4.3,  3.3,  3,  2.8],
    [ 9.3,  6.2,  4,  3.1,  2.8,  2.6],
    [ 9.6,  6.4,  4.2,  3.2,  2.9,  2.7],
    [10.2,  6.8,  4.4,  3.4,  3.1,  2.9],
    [13.5,  8.9,  5.6,  4.2,  3.9,  3.6] ]

/-- `bilinear_interp` from corvus_bms.c: module resistance (mΩ). -/
def bilinear_interp (temp soc : ℚ) : ℚ :=
  let t := clamp_d temp (r_temps.getD 0 0) (r_temps.getD (r_temps.length - 1) 0)
  let s := clamp_d soc (r_socs.getD 0 0) (r_socs.getD (r_socs.length - 1) 0)
  let ti := bracket_lo r_temps t
  let t_frac := (t - r_temps.getD ti 0) / (r_temps.getD (ti + 1) 0 - r_temps.getD ti 0)
  let si := bracket_lo r_socs s
  let s_frac := (s - r_socs.getD si 0) / (r_socs.getD (si + 1) 0 - r_socs.getD si 0)
  let r00 := (r_table.getD si []).getD ti 0
  let r01 := (r_table.getD si []).getD (ti + 1) 0
  let r10 := (r_table.getD (si + 1) []).getD ti 0
  let r11 := (r_table.getD (si + 1) []).getD (ti + 1) 0
  let r0 := r00 + (r01 - r00) * t_frac
  let r1 := r10 + (r11 - r10) * t_frac
  r0 + (r1 - r0) * s_frac

def corvus_module_resistance (temp soc : ℚ) : ℚ :=
  bilinear_interp temp soc * (1 / 10 ^ 3)

def corvus_pack_resistance (temp soc : ℚ) : ℚ :=
  corvus_module_resistance temp soc * (BMS_NUM_MODULES : ℚ)

/- ===================== OCV and dOCV/dT ===================== -/

def ocv_soc_bp : List ℚ :=
  [0.00, 0.02, 0.05, 0.08, 0.10, 0.15, 0.20, 0.25,
   0.30, 0.35, 0.40, 0.45, 0.50, 0.55, 0.60, 0.65,
   0.70, 0.75, 0.80, 0.85, 0.90, 0.95, 0.98, 1.00]

def ocv_val_bp : List ℚ :=
  [3.000, 3.280, 3.420, 3.480, 3.510, 3.555, 3.590, 3.610,
   3.625, 3.638, 3.650, 3.662, 3.675, 3.690, 3.710, 3.735,
   3.765, 3.800, 3.845, 3.900, 3.960, 4.030, 4.100, 4.190]

def corvus_ocv_from_soc (soc : ℚ) : ℚ :=
  linterp ocv_soc_bp ocv_val_bp (clamp_d soc 0 1)

/-- 7-segment piecewise dOCV/dT (V/K). -/
def corvus_docv_dt (soc : ℚ) : ℚ :=
  if soc < 0.10 then -0.0001
  else if soc < 0.25 then -0.00025
  else if soc < 0.50 then -0.00045
  else if soc < 0.70 then -0.00035
  else if soc < 0.85 then -0.00015
  else if soc < 0.95 then 0.00005
  else 0.00015

/- ===================== current limit curves ===================== -/

def temp_charge_bp : List ℚ := [-25, 0, 5, 15, 35, 45, 55, 65]

def temp_charge_cr : List ℚ := [0, 0, 0, 3, 3, 2, 0, 0]

def temp_disch_bp : List ℚ :=
  [-25, -15, -10, -5, 0, 5, 10, 25, 30, 35, 45, 55, 60, 65, 70]

def temp_disch_cr : List ℚ :=
  [0.2, 0.2, 1, 1.5, 2, 4.5, 5, 5, 4.5, 4, 3.8, 3.8, 0.2, 0.2, 0]

def soc_charge_bp : List ℚ := [0, 0.85, 0.90, 0.95, 1.00]

def soc_charge_cr : List ℚ := [3, 3, 2, 1, 0.5]

def soc_disch_bp : List ℚ :=
  [0.00, 0.02, 0.05, 0.08, 0.10, 0.15, 0.20, 0.50, 1.00]

def soc_disch_cr : List ℚ := [1, 1, 2.2, 2.2, 4, 4, 5, 5, 5]

def sev_charge_bp : List ℚ := [3.000, 4.100, 4.200]

def sev_charge_cr : List ℚ := [3, 3, 0]

def sev_disch_bp : List ℚ :=
  [3.000, 3.200, 3.300, 3.400, 3.450, 3.550, 4.200]

def sev_disch_cr : List ℚ := [0, 0, 2, 2.5, 3.8, 5, 5]

structure bms_current_limit_t where
  charge : ℚ
  discharge : ℚ
deriving Repr, DecidableEq

def corvus_temp_current_limit (temp cap : ℚ) : bms_current_limit_t :=
  { charge := max_d 0 (linterp temp_charge_bp temp_charge_cr temp * cap)
    discharge := max_d 0 (linterp temp_disch_bp temp_disch_cr temp * cap) }

def corvus_soc_current_limit (soc cap : ℚ) : bms_current_limit_t :=
  { charge := max_d 0 (linterp soc_charge_bp soc_charge_cr soc * cap)
    discharge := max_d 0 (linterp soc_disch_bp soc_disch_cr soc * cap) }

def corvus_sev_current_limit (cell_v cap : ℚ) : bms_current_limit_t :=
  { charge := max_d 0 (linterp sev_charge_bp sev_charge_cr cell_v * cap)
    discharge := max_d 0 (linterp sev_disch_bp sev_disch_cr cell_v * cap) }

/- ===================== virtual pack ===================== -/

structure corvus_pack_t where
  pack_id : ℤ
  num_modules : ℤ
  cells_per_module : ℤ
  capacity_ah : ℚ
  soc : ℚ
  temperature : ℚ
  current : ℚ
  cell_voltage : ℚ
  pack_voltage : ℚ
deriving Repr, DecidableEq

def pack_update_voltage (p : corvus_pack_t) : corvus_pack_t :=
  let ocv := corvus_ocv_from_soc p.soc
  let r_total := corvus_pack_resistance p.temperature p.soc
  let n_cells := p.num_modules * p.cells_per_module
  if n_cells ≤ 0 then
    { p with cell_voltage := ocv, pack_voltage := 0 }
  else
    let cv := ocv + p.current * r_total / (n_cells : ℚ)
    { p with cell_voltage := cv, pack_voltage := cv * (n_cells : ℚ) }

def corvus_pack_init (pack_id : ℤ) (soc temperature : ℚ) : corvus_pack_t :=
  pack_update_voltage
    { pack_id := pack_id
      num_modules := BMS_NUM_MODULES
      cells_per_module := BMS_CELLS_PER_MODULE
      capacity_ah := BMS_NOMINAL_CAPACITY_AH
      soc := clamp_d soc 0 1
      temperature := temperature
      current := 0
      cell_voltage := 0
      pack_voltage := 0 }

def corvus_validate_unique_pack_ids : List ℤ → Bool
  | [] => true
  | x :: xs => (!xs.contains x) && corvus_validate_unique_pack_ids xs

/-- Single sub-step of pack physics (no dt subdivision). -/
def pack_step_internal (pack : corvus_pack_t) (dt current : ℚ)
    (contactors_closed : Bool) (external_heat : ℚ) : corvus_pack_t :=
  let p := { pack with current := if contactors_closed then current else 0 }
  let effective_current :=
    if p.current > 0 then p.current * BMS_COULOMBIC_EFFICIENCY else p.current
  let delta_soc := (effective_current * dt) / (p.capacity_ah * 3600)
  let p := { p with soc := clamp_d (p.soc + delta_soc) 0 1 }
  let r_total := corvus_pack_resistance p.temperature p.soc
  let n_cells : ℤ := p.num_modules * p.cells_per_module
  let t_kelvin := p.temperature + 273.15
  let q_rev := p.current * t_kelvin * corvus_docv_dt p.soc * (n_cells : ℚ)
  let heat_gen := p.current * p.current * r_total + q_rev + external_heat
  let cooling := BMS_THERMAL_COOLING_COEFF * (p.temperature - BMS_AMBIENT_TEMP)
  let temp' := p.temperature + (heat_gen - cooling) / BMS_THERMAL_MASS * dt
  let temp'' :=
    if temp' < BMS_MIN_TEMPERATURE then BMS_MIN_TEMPERATURE
    else if temp' > BMS_MAX_TEMPERATURE then BMS_MAX_TEMPERATURE
    else temp'
  pack_update_voltage { p with temperature := temp'' }

/-- The `while (remaining > 0)` subdivision loop of `corvus_pack_step`. -/
def pack_step_loop (pack : corvus_pack_t) (remaining current : ℚ)
    (contactors_closed : Bool) (external_heat : ℚ) : corvus_pack_t :=
  if h : remaining ≤ 0 then pack
  else
    let sub_dt := if remaining < BMS_MAX_DT then remaining else BMS_MAX_DT
    pack_step_loop (pack_step_internal pack sub_dt current contactors_closed external_heat)
      (remaining - sub_dt) current contactors_closed external_heat
termination_by (⌈remaining / BMS_MAX_DT⌉).toNat
decreasing_by
  simp only [not_le] at h
  have hmax : (0 : ℚ) < BMS_MAX_DT := by norm_num [BMS_MAX_DT]
  rcases lt_or_le remaining BMS_MAX_DT with hc | hc
  · rw [dif_pos hc, sub_self]
    simp only [zero_div, Int.ceil_zero, Int.toNat_zero]
    have hpos : (0 : ℚ) < remaining / BMS_MAX_DT := by positivity
    have := Int.ceil_pos.mpr hpos
    omega
  · rw [dif_neg (not_lt.mpr hc)]
    have h1 : (remaining - BMS_MAX_DT) / BMS_MAX_DT = remaining / BMS_MAX_DT - 1 := by
      field_simp
    rw [h1, Int.ceil_sub_one]
    have h3 : (0 : ℤ) < ⌈remaining / BMS_MAX_DT⌉ :=
      Int.ceil_pos.mpr (by positivity)
    omega

/-- `corvus_pack_step`: returns the C return code together with the final
pack state (the C function mutates in place and returns `int`). -/
def corvus_pack_step (pack : corvus_pack_t) (dt current : ℚ)
    (contactors_closed : Bool) (external_heat : ℚ) : ℤ × corvus_pack_t :=
  if dt ≤ 0 then (-1, pack)
  else (0, pack_step_loop pack dt current contactors_closed external_heat)

/- ===================== pack controller ===================== -/

inductive bms_pack_mode_t where
  | BMS_MODE_OFF
  | BMS_MODE_POWER_SAVE
  | BMS_MODE_FAULT
  | BMS_MODE_READY
  | BMS_MODE_CONNECTING
  | BMS_MODE_CONNECTED
  | BMS_MODE_NOT_READY
deriving Repr, DecidableEq

open bms_pack_mode_t

structure corvus_controller_t where
  pack : corvus_pack_t
  mode : bms_pack_mode_t
  contactors_closed : Bool
  charge_current_limit : ℚ
  discharge_current_limit : ℚ
  has_warning : Bool
  has_fault : Bool
  fault_latched : Bool
  hw_fault_latched : Bool
  warning_message : List String
  fault_message : List String
  ov_fault_timer : ℚ
  uv_fault_timer : ℚ
  ot_fault_timer : ℚ
  ov_warn_timer : ℚ
  uv_warn_timer : ℚ
  ot_warn_timer : ℚ
  hw_ov_timer : ℚ
  hw_uv_timer : ℚ
  hw_ot_timer : ℚ
  oc_fault_timer : ℚ
  oc_warn_timer : ℚ
  warning_active_time : ℚ
  precharge_timer : ℚ
  time_in_safe_state : ℚ
deriving Repr, DecidableEq

/-- `append_fault_msg`: message buffers are modelled as lists of labels;
the C dedup (`strstr` on the buffer) becomes membership, and the numeric
snprintf payload of each message is abstracted away. -/
def append_fault_msg (buf : List String) (msg : String) : List String :=
  if buf.contains msg then buf else buf ++ [msg]

def trigger_hw_fault (c : corvus_controller_t) (message : String) : corvus_controller_t :=
  { c with
    has_fault := true
    fault_latched := true
    hw_fault_latched := true
    fault_message := append_fault_msg c.fault_message message
    contactors_closed := false
    mode := BMS_MODE_FAULT
    charge_current_limit := 0
    discharge_current_limit := 0 }

def trigger_sw_fault (c : corvus_controller_t) (message : String) : corvus_controller_t :=
  { c with
    has_fault := true
    fault_latched := true
    fault_message := append_fault_msg c.fault_message message
    contactors_closed := false
    mode := BMS_MODE_FAULT
    charge_current_limit := 0
    discharge_current_limit := 0 }

/-- First block of `check_hw_safety` (HW over-voltage, 1 s delay). -/
def hw_ov_check (c : corvus_controller_t) (dt : ℚ) : corvus_controller_t :=
  let v := c.pack.cell_voltage
  if v ≥ BMS_HW_SAFETY_OVER_VOLTAGE then
    let c := { c with hw_ov_timer := c.hw_ov_timer + dt }
    if c.hw_ov_timer ≥ 1 then trigger_hw_fault c "HW SAFETY: over-voltage" else c
  else
    { c with hw_ov_timer := max_d 0 (c.hw_ov_timer - dt * BMS_FAULT_TIMER_DECAY_RATE) }

/-- Second block of `check_hw_safety` (HW under-voltage, 1 s delay). -/
def hw_uv_check (c : corvus_controller_t) (dt : ℚ) : corvus_controller_t :=
  let v := c.pack.cell_voltage
  if v ≤ BMS_HW_SAFETY_UNDER_VOLTAGE then
    let c := { c with hw_uv_timer := c.hw_uv_timer + dt }
    if c.hw_uv_timer ≥ 1 then trigger_hw_fault c "HW SAFETY: under-voltage" else c
  else
    { c with hw_uv_timer := max_d 0 (c.hw_uv_timer - dt * BMS_FAULT_TIMER_DECAY_RATE) }

/-- Third block of `check_hw_safety` (HW over-temperature, 5 s delay). -/
def hw_ot_check (c : corvus_controller_t) (dt : ℚ) : corvus_controller_t :=
  let t := c.pack.temperature
  if t ≥ BMS_HW_SAFETY_OVER_TEMP then
    let c := { c with hw_ot_timer := c.hw_ot_timer + dt }
    if c.hw_ot_timer ≥ 5 then trigger_hw_fault c "HW SAFETY: over-temperature" else c
  else
    { c with hw_ot_timer := max_d 0 (c.hw_ot_timer - dt * BMS_FAULT_TIMER_DECAY_RATE) }

/-- `check_hw_safety`: the three blocks in source order. -/
def check_hw_safety (c : corvus_controller_t) (dt : ℚ) : corvus_controller_t :=
  hw_ot_check (hw_uv_check (hw_ov_check c dt) dt) dt

/-- OV-warning block of `check_alarms` (condition flag and timer). -/
def warn_ov_check (c : corvus_controller_t) (dt : ℚ) : Bool × corvus_controller_t :=
  let v := c.pack.cell_voltage
  if v ≥ BMS_SE_OVER_VOLTAGE_WARNING then
    let c := { c with ov_warn_timer := c.ov_warn_timer + dt }
    (decide (c.ov_warn_timer ≥ 5), c)
  else if v < BMS_SE_OV_WARN_CLEAR then (false, { c with ov_warn_timer := 0 })
  else (false, c)

/-- UV-warning block of `check_alarms`. -/
def warn_uv_check (c : corvus_controller_t) (dt : ℚ) : Bool × corvus_controller_t :=
  let v := c.pack.cell_voltage
  if v ≤ BMS_SE_UNDER_VOLTAGE_WARNING then
    let c := { c with uv_warn_timer := c.uv_warn_timer + dt }
    (decide (c.uv_warn_timer ≥ 5), c)
  else if v > BMS_SE_UV_WARN_CLEAR then (false, { c with uv_warn_timer := 0 })
  else (false, c)

/-- OT-warning block of `check_alarms`. -/
def warn_ot_check (c : corvus_controller_t) (dt : ℚ) : Bool × corvus_controller_t :=
  let t := c.pack.temperature
  if t ≥ BMS_SE_OVER_TEMP_WARNING then
    let c := { c with ot_warn_timer := c.ot_warn_timer + dt }
    (decide (c.ot_warn_timer ≥ 5), c)
  else if t < BMS_SE_OT_WARN_CLEAR then (false, { c with ot_warn_timer := 0 })
  else (false, c)

/-- Overcurrent block of `check_alarms`: returns (warn_oc, oc_charge, state). -/
def oc_warn_check (c : corvus_controller_t) (dt : ℚ) :
    Bool × Bool × corvus_controller_t :=
  let t := c.pack.temperature
  let tc_lim := corvus_temp_current_limit t c.pack.capacity_ah
  let i := c.pack.current
  let oc_charge := decide (i > 1.05 * tc_lim.charge + 5)
  let oc_discharge := decide (i < -(1.05 * tc_lim.discharge - 5))
  if oc_charge || oc_discharge then
    let c := { c with oc_warn_timer := c.oc_warn_timer + dt }
    (decide (c.oc_warn_timer ≥ 10), oc_charge, c)
  else
    (false, oc_charge,
     { c with oc_warn_timer := max_d 0 (c.oc_warn_timer - dt * BMS_FAULT_TIMER_DECAY_RATE) })

/-- Warning aggregation with hold time (middle of `check_alarms`). -/
def update_warning_state (c : corvus_controller_t) (dt : ℚ)
    (warn_ov warn_uv warn_ot warn_oc : Bool) : corvus_controller_t :=
  let any_warn := warn_ov || warn_uv || warn_ot || warn_oc
  if any_warn then
    let msgs : List String := []
    let msgs := if warn_ov then append_fault_msg msgs "SE OV warning" else msgs
    let msgs := if warn_uv then append_fault_msg msgs "SE UV warning" else msgs
    let msgs := if warn_ot then append_fault_msg msgs "SE OT warning" else msgs
    let msgs := if warn_oc then append_fault_msg msgs "OC warning" else msgs
    { c with has_warning := true, warning_message := msgs, warning_active_time := 0 }
  else if c.has_warning then
    let c := { c with warning_active_time := c.warning_active_time + dt }
    if c.warning_active_time ≥ BMS_WARNING_HOLD_TIME then
      { c with has_warning := false, warning_message := [], warning_active_time := 0 }
    else c
  else c

/-- OC fault block of `check_alarms` (5 s, only charging below 0 °C). -/
def oc_fault_check (c : corvus_controller_t) (dt : ℚ) (oc_charge : Bool) :
    corvus_controller_t :=
  let t := c.pack.temperature
  if t < 0 ∧ oc_charge = true then
    let c := { c with oc_fault_timer := c.oc_fault_timer + dt }
    if c.oc_fault_timer ≥ 5 ∧ c.fault_latched = false then
      trigger_sw_fault c "OC fault: charge at sub-zero"
    else c
  else
    { c with oc_fault_timer := max_d 0 (c.oc_fault_timer - dt * BMS_FAULT_TIMER_DECAY_RATE) }

/-- SE OV fault block of `check_alarms` (5 s delay). -/
def ov_fault_check (c : corvus_controller_t) (dt : ℚ) : corvus_controller_t :=
  let v := c.pack.cell_voltage
  if v ≥ BMS_SE_OVER_VOLTAGE_FAULT then
    let c := { c with ov_fault_timer := c.ov_fault_timer + dt }
    if c.ov_fault_timer ≥ 5 ∧ c.fault_latched = false then
      trigger_sw_fault c "SE OV fault"
    else c
  else
    { c with ov_fault_timer := max_d 0 (c.ov_fault_timer - dt * BMS_FAULT_TIMER_DECAY_RATE) }

/-- SE UV fault block of `check_alarms` (5 s delay). -/
def uv_fault_check (c : corvus_controller_t) (dt : ℚ) : corvus_controller_t :=
  let v := c.pack.cell_voltage
  if v ≤ BMS_SE_UNDER_VOLTAGE_FAULT then
    let c := { c with uv_fault_timer := c.uv_fault_timer + dt }
    if c.uv_fault_timer ≥ 5 ∧ c.fault_latched = false then
      trigger_sw_fault c "SE UV fault"
    else c
  else
    { c with uv_fault_timer := max_d 0 (c.uv_fault_timer - dt * BMS_FAULT_TIMER_DECAY_RATE) }

/-- SE OT fault block of `check_alarms` (5 s delay). -/
def ot_fault_check (c : corvus_controller_t) (dt : ℚ) : corvus_controller_t :=
  let t := c.pack.temperature
  if t ≥ BMS_SE_OVER_TEMP_FAULT then
    let c := { c with ot_fault_timer := c.ot_fault_timer + dt }
    if c.ot_fault_timer ≥ 5 ∧ c.fault_latched = false then
      trigger_sw_fault c "SE OT fault"
    else c
  else
    { c with ot_fault_timer := max_d 0 (c.ot_fault_timer - dt * BMS_FAULT_TIMER_DECAY_RATE) }

/-- `check_alarms`: the blocks in source order. -/
def check_alarms (c : corvus_controller_t) (dt : ℚ) : corvus_controller_t :=
  let w1 := warn_ov_check c dt
  let w2 := warn_uv_check w1.2 dt
  let w3 := warn_ot_check w2.2 dt
  let w4 := oc_warn_check w3.2 dt
  let c5 := update_warning_state w4.2.2 dt w1.1 w2.1 w3.1 w4.1
  let c6 := oc_fault_check c5 dt w4.2.1
  let c7 := ov_fault_check c6 dt
  let c8 := uv_fault_check c7 dt
  ot_fault_check c8 dt

/-- `update_safe_state_timer`. -/
def update_safe_state_timer (c : corvus_controller_t) (dt : ℚ) : corvus_controller_t :=
  let v := c.pack.cell_voltage
  let t := c.pack.temperature
  if v < BMS_SE_OVER_VOLTAGE_FAULT ∧ v > BMS_SE_UNDER_VOLTAGE_FAULT
      ∧ t < BMS_SE_OVER_TEMP_FAULT ∧ t < BMS_HW_SAFETY_OVER_TEMP then
    { c with time_in_safe_state := c.time_in_safe_state + dt }
  else
    { c with time_in_safe_state := 0 }

def corvus_controller_init (pack_id : ℤ) (soc temperature : ℚ) : corvus_controller_t :=
  { pack := corvus_pack_init pack_id soc temperature
    mode := BMS_MODE_READY
    contactors_closed := false
    charge_current_limit := BMS_NOMINAL_CAPACITY_AH
    discharge_current_limit := BMS_NOMINAL_CAPACITY_AH
    has_warning := false
    has_fault := false
    fault_latched := false
    hw_fault_latched := false
    warning_message := []
    fault_message := []
    ov_fault_timer := 0
    uv_fault_timer := 0
    ot_fault_timer := 0
    ov_warn_timer := 0
    uv_warn_timer := 0
    ot_warn_timer := 0
    hw_ov_timer := 0
    hw_uv_timer := 0
    hw_ot_timer := 0
    oc_fault_timer := 0
    oc_warn_timer := 0
    warning_active_time := 0
    precharge_timer := 0
    time_in_safe_state := 0 }

def corvus_controller_complete_connection (c : corvus_controller_t)
    (bus_voltage : ℚ) : Bool × corvus_controller_t :=
  if c.mode ≠ BMS_MODE_CONNECTING then (false, c)
  else
    let max_delta := BMS_VOLTAGE_MATCH_PER_MODULE * (c.pack.num_modules : ℚ)
    if |c.pack.pack_voltage - bus_voltage| > max_delta then
      (false, { c with mode := BMS_MODE_READY })
    else
      (true, { c with mode := BMS_MODE_CONNECTED, contactors_closed := true })

def corvus_controller_manual_fault_reset (c : corvus_controller_t) :
    Bool × corvus_controller_t :=
  if c.fault_latched = false then (true, c)
  else
    let v := c.pack.cell_voltage
    let t := c.pack.temperature
    if ¬(v < BMS_SE_OVER_VOLTAGE_FAULT ∧ v > BMS_SE_UNDER_VOLTAGE_FAULT
          ∧ t < BMS_SE_OVER_TEMP_FAULT) then
      (false, { c with time_in_safe_state := 0 })
    else if c.time_in_safe_state < BMS_FAULT_RESET_HOLD_TIME then (false, c)
    else
      (true,
       { c with
         fault_latched := false
         hw_fault_latched := false
         has_fault := false
         fault_message := []
         mode := BMS_MODE_READY
         ov_fault_timer := 0
         uv_fault_timer := 0
         ot_fault_timer := 0
         hw_ov_timer := 0
         hw_uv_timer := 0
         hw_ot_timer := 0
         oc_fault_timer := 0
         oc_warn_timer := 0
         time_in_safe_state := 0 })

def corvus_controller_step (c : corvus_controller_t) (dt bus_voltage : ℚ) :
    corvus_controller_t :=
  let c := check_hw_safety c dt
  let c := check_alarms c dt
  let c := update_safe_state_timer c dt
  if c.fault_latched then
    { c with charge_current_limit := 0, discharge_current_limit := 0 }
  else
    let c :=
      if c.mode = BMS_MODE_CONNECTING then
        let c := { c with precharge_timer := c.precharge_timer + dt }
        if c.precharge_timer ≥ BMS_PRECHARGE_DURATION then
          (corvus_controller_complete_connection c bus_voltage).2
        else c
      else c
    let tc := corvus_temp_current_limit c.pack.temperature c.pack.capacity_ah
    let sc := corvus_soc_current_limit c.pack.soc c.pack.capacity_ah
    let vc := corvus_sev_current_limit c.pack.cell_voltage c.pack.capacity_ah
    { c with
      charge_current_limit := max_d 0 (min_d tc.charge (min_d sc.charge vc.charge))
      discharge_current_limit :=
        max_d 0 (min_d tc.discharge (min_d sc.discharge vc.discharge)) }

/- ===================== array controller ===================== -/

structure corvus_array_t where
  controllers : List corvus_controller_t
  num_packs : ℤ
  bus_voltage : ℚ
  array_charge_limit : ℚ
  array_discharge_limit : ℚ
deriving Repr, DecidableEq

/-- `corvus_array_init`.  The C function calls
`corvus_validate_unique_pack_ids` on the ids, but on failure it only prints
a warning to stderr and carries on initializing every controller; there is
no return code (the function returns `void`). -/
def corvus_array_init (num_packs : ℤ) (pack_ids : List ℤ)
    (socs temperatures : List ℚ) : corvus_array_t :=
  if num_packs ≤ 0 then
    { controllers := [], num_packs := 0, bus_voltage := 0
      array_charge_limit := 0, array_discharge_limit := 0 }
  else
    let n := min num_packs BMS_MAX_PACKS
    let ctrls := (List.range n.toNat).map fun i =>
      corvus_controller_init (pack_ids.getD i 0) (socs.getD i 0) (temperatures.getD i 0)
    { controllers := ctrls, num_packs := n, bus_voltage := 0
      array_charge_limit := 0, array_discharge_limit := 0 }

/- ===================== array current solver ===================== -/

/-- Resistance of a connected controller's pack, as read inside
`solve_currents`. -/
def pack_r (c : corvus_controller_t) : ℚ :=
  corvus_pack_resistance c.pack.temperature c.pack.soc

/-- Total OCV (per-cell OCV × 308 series cells), as read inside
`solve_currents`. -/
def pack_ocv_total (c : corvus_controller_t) : ℚ :=
  corvus_ocv_from_soc c.pack.soc * (BMS_NUM_CELLS_SERIES : ℚ)

/-- Per-connected-pack solver bookkeeping: the `active[]`, `clamped_val[]`,
`is_clamped[]` and `pack_currents[]` arrays of `solve_currents`, bundled
with the controller they index. -/
structure solver_slot_t where
  ctrl : corvus_controller_t
  active : Bool
  is_clamped : Bool
  clamped_val : ℚ
  current : ℚ
deriving Repr, DecidableEq

def mk_slot (c : corvus_controller_t) : solver_slot_t :=
  { ctrl := c, active := true, is_clamped := false, clamped_val := 0, current := 0 }

def active_sum_g (slots : List solver_slot_t) : ℚ :=
  ((slots.filter fun s => s.active).map fun s => 1 / pack_r s.ctrl).sum

def active_sum_ocv_g (slots : List solver_slot_t) : ℚ :=
  ((slots.filter fun s => s.active).map fun s => pack_ocv_total s.ctrl / pack_r s.ctrl).sum

def clamped_sum (slots : List solver_slot_t) : ℚ :=
  ((slots.filter fun s => s.is_clamped).map fun s => s.clamped_val).sum

def current_sum (slots : List solver_slot_t) : ℚ :=
  (slots.map fun s => s.current).sum

def count_clamped (slots : List solver_slot_t) : ℕ :=
  (slots.filter fun s => s.is_clamped).length

/-- The per-iteration sweep over still-active packs (step 2 of the solver):
computes the tentative `I_k`, clamps offenders, and accumulates the
Kirchhoff residual.  Returns the updated slots, the updated residual, and
the `any_clamped` flag. -/
def solve_sweep (v_bus : ℚ) (is_equalization : Bool) :
    List solver_slot_t → ℚ → List solver_slot_t × ℚ × Bool
  | [], residual => ([], residual, false)
  | s :: rest, residual =>
    if s.active then
      let r := pack_r s.ctrl
      let ocv := pack_ocv_total s.ctrl
      let i_k := (v_bus - ocv) / r
      if i_k > 0 ∧ i_k > s.ctrl.charge_current_limit then
        let s' := { s with clamped_val := s.ctrl.charge_current_limit,
                           is_clamped := true, active := false }
        let residual' :=
          if is_equalization then residual else residual - s.ctrl.charge_current_limit
        let out := solve_sweep v_bus is_equalization rest residual'
        (s' :: out.1, out.2.1, true)
      else if i_k < 0 ∧ -i_k > s.ctrl.discharge_current_limit then
        let s' := { s with clamped_val := -s.ctrl.discharge_current_limit,
                           is_clamped := true, active := false }
        let residual' :=
          if is_equalization then residual
          else residual - (-s.ctrl.discharge_current_limit)
        let out := solve_sweep v_bus is_equalization rest residual'
        (s' :: out.1, out.2.1, true)
      else
        let s' := { s with current := i_k }
        let out := solve_sweep v_bus is_equalization rest residual
        (s' :: out.1, out.2.1, out.2.2)
    else
      let out := solve_sweep v_bus is_equalization rest residual
      (s :: out.1, out.2.1, out.2.2)

/-- Acceptance bookkeeping for one slot: a clamped pack gets its clamped
value as current, then (Kirchhoff mode only) the post-solve hard clamp at
1 + `BMS_CURRENT_LIMIT_TOLERANCE` is applied. -/
def accept_one (is_equalization : Bool) (s : solver_slot_t) : solver_slot_t :=
  let s := if s.is_clamped then { s with current := s.clamped_val } else s
  if is_equalization then s
  else if s.current > 0 ∧
      s.current > s.ctrl.charge_current_limit * (1 + BMS_CURRENT_LIMIT_TOLERANCE) then
    { s with current := s.ctrl.charge_current_limit }
  else if s.current < 0 ∧
      -s.current > s.ctrl.discharge_current_limit * (1 + BMS_CURRENT_LIMIT_TOLERANCE) then
    { s with current := -s.ctrl.discharge_current_limit }
  else s

/-- Acceptance bookkeeping over all slots (the two `for` loops after
`!any_clamped` in `solve_currents`). -/
def accept_currents (is_equalization : Bool) (slots : List solver_slot_t) :
    List solver_slot_t :=
  slots.map (accept_one is_equalization)

structure solve_result_t where
  accepted : Bool
  bus_voltage : Option ℚ
  slots : List solver_slot_t
deriving Repr, DecidableEq

def unclamped_sum_g (slots : List solver_slot_t) : ℚ :=
  ((slots.filter fun s => !s.is_clamped).map fun s => 1 / pack_r s.ctrl).sum

def unclamped_sum_ocv_g (slots : List solver_slot_t) : ℚ :=
  ((slots.filter fun s => !s.is_clamped).map fun s => pack_ocv_total s.ctrl / pack_r s.ctrl).sum

/-- The "final solve with remaining active" block after the iteration
loop exits without acceptance. -/
def solve_final (is_equalization : Bool) (slots : List solver_slot_t)
    (residual : ℚ) : solve_result_t :=
  let slots := slots.map fun s =>
    if s.is_clamped then { s with current := s.clamped_val } else s
  let has_active := slots.any fun s => !s.is_clamped
  let sum_g := unclamped_sum_g slots
  let sum_ocv_g := unclamped_sum_ocv_g slots
  if has_active = true ∧ sum_g > BMS_MIN_CONDUCTANCE then
    let v_bus :=
      if is_equalization then (sum_ocv_g - clamped_sum slots) / sum_g
      else (sum_ocv_g + residual) / sum_g
    { accepted := false, bus_voltage := some v_bus
      slots := slots.map fun s =>
        if s.is_clamped then s
        else { s with current := (v_bus - pack_ocv_total s.ctrl) / pack_r s.ctrl } }
  else if has_active = false then
    let vsum := (slots.map fun s => pack_ocv_total s.ctrl + s.current * pack_r s.ctrl).sum
    { accepted := false, bus_voltage := some (vsum / (slots.length : ℚ)), slots := slots }
  else
    { accepted := false, bus_voltage := none, slots := slots }

/-- The `for (iteration = 0; iteration < num_conn; iteration++)` loop of
`solve_currents`; the fuel is `num_conn`. -/
def solve_loop (is_equalization : Bool) :
    List solver_slot_t → ℚ → ℕ → solve_result_t
  | slots, residual, 0 => solve_final is_equalization slots residual
  | slots, residual, fuel + 1 =>
    let sum_g := active_sum_g slots
    let sum_ocv_g := active_sum_ocv_g slots
    if sum_g < BMS_MIN_CONDUCTANCE then solve_final is_equalization slots residual
    else
      let v_bus :=
        if is_equalization then (sum_ocv_g - clamped_sum slots) / sum_g
        else (sum_ocv_g + residual) / sum_g
      let out := solve_sweep v_bus is_equalization slots residual
      if out.2.2 = false then
        { accepted := true, bus_voltage := some v_bus
          slots := accept_currents is_equalization out.1 }
      else solve_loop is_equalization out.1 out.2.1 fuel

/-- The pre-clamp of the requested total current to the array envelope
(Kirchhoff mode), at the top of `solve_currents`. -/
def kirchhoff_clamped_target (target_current array_charge_limit
    array_discharge_limit : ℚ) : ℚ :=
  if target_current > 0 then min_d target_current array_charge_limit
  else if target_current < 0 then max_d target_current (-array_discharge_limit)
  else 0

/-- `solve_currents`, parameterized by the array envelope and the list of
CONNECTED controllers (`array->controllers[conn_idx[i]]`). -/
def solve_currents (array_charge_limit array_discharge_limit : ℚ)
    (conn : List corvus_controller_t) (target_current : ℚ)
    (is_equalization : Bool) : solve_result_t :=
  let actual_total :=
    if is_equalization then 0
    else kirchhoff_clamped_target target_current array_charge_limit array_discharge_limit
  let slots := conn.map mk_slot
  solve_loop is_equalization slots actual_total conn.length

/- ===================== specification-level definitions ===================== -/

/-- Iterated protection/control runs: `corvus_controller_step` applied for
each `dt` in the list, left to right, with a fixed bus voltage. -/
def corvus_controller_run_steps (c : corvus_controller_t) (bus_voltage : ℚ) :
    List ℚ → corvus_controller_t
  | [] => c
  | dt :: rest => corvus_controller_run_steps (corvus_controller_step c dt bus_voltage) bus_voltage rest

/-- The safe-conditions test of `corvus_controller_manual_fault_reset`. -/
def reset_safe_window (c : corvus_controller_t) : Prop :=
  c.pack.cell_voltage < BMS_SE_OVER_VOLTAGE_FAULT
    ∧ c.pack.cell_voltage > BMS_SE_UNDER_VOLTAGE_FAULT
    ∧ c.pack.temperature < BMS_SE_OVER_TEMP_FAULT

instance (c : corvus_controller_t) : Decidable (reset_safe_window c) := by
  unfold reset_safe_window; infer_instance

/-- Solver slot invariant: `active[]` is the complement of `is_clamped[]`
(as maintained by `solve_currents`). -/
def slots_wf (slots : List solver_slot_t) : Prop :=
  ∀ s ∈ slots, s.active = !s.is_clamped

/-- Solver slot invariant: a clamped slot's value is one of its two
envelope bounds. -/
def slots_clamp_wf (slots : List solver_slot_t) : Prop :=
  ∀ s ∈ slots, s.is_clamped = true →
    s.clamped_val = s.ctrl.charge_current_limit
      ∨ s.clamped_val = -s.ctrl.discharge_current_limit

/-- Non-negative per-pack envelopes (true of every controller the array
passes to the solver). -/
def slots_lim_wf (slots : List solver_slot_t) : Prop :=
  ∀ s ∈ slots, 0 ≤ s.ctrl.charge_current_limit ∧ 0 ≤ s.ctrl.discharge_current_limit

/-- What one sweep does to one slot when no clamping occurs anywhere in
the sweep: inactive slots are untouched, active ones get the tentative
current, which stays inside both envelope bounds. -/
def sweep_nc (v : ℚ) (s s' : solver_slot_t) : Prop :=
  (s.active = false ∧ s' = s) ∨
  (s.active = true ∧
    ¬((v - pack_ocv_total s.ctrl) / pack_r s.ctrl > 0
        ∧ (v - pack_ocv_total s.ctrl) / pack_r s.ctrl > s.ctrl.charge_current_limit)
    ∧ ¬((v - pack_ocv_total s.ctrl) / pack_r s.ctrl < 0
        ∧ -((v - pack_ocv_total s.ctrl) / pack_r s.ctrl) > s.ctrl.discharge_current_limit)
    ∧ s' = { s with current := (v - pack_ocv_total s.ctrl) / pack_r s.ctrl })

/- Concrete states used to instantiate theorems with hypotheses.  Fields
are literal values (a mid-SoC pack at 25 °C resting at its OCV of
3.675 V/cell) so that hypotheses evaluate by `norm_num`. -/

/-- A mid-SoC pack at 25 °C resting at OCV. -/
def ex_pack_state : corvus_pack_t :=
  { pack_id := 1
    num_modules := 22
    cells_per_module := 14
    capacity_ah := 128
    soc := 0.5
    temperature := 25
    current := 0
    cell_voltage := 3.675
    pack_voltage := 1131.9 }

/-- A quiescent READY controller around `ex_pack_state`. -/
def ex_ctrl : corvus_controller_t :=
  { pack := ex_pack_state
    mode := bms_pack_mode_t.BMS_MODE_READY
    contactors_closed := false
    charge_current_limit := 128
    discharge_current_limit := 128
    has_warning := false
    has_fault := false
    fault_latched := false
    hw_fault_latched := false
    warning_message := []
    fault_message := []
    ov_fault_timer := 0
    uv_fault_timer := 0
    ot_fault_timer := 0
    ov_warn_timer := 0
    uv_warn_timer := 0
    ot_warn_timer := 0
    hw_ov_timer := 0
    hw_uv_timer := 0
    hw_ot_timer := 0
    oc_fault_timer := 0
    oc_warn_timer := 0
    warning_active_time := 0
    precharge_timer := 0
    time_in_safe_state := 0 }

/-- A latched controller, 30 s into the safe-state hold, whose pack sits
inside the SW-fault safe window. -/
def ex_ctrl_latched_safe : corvus_controller_t :=
  { ex_ctrl with
    fault_latched := true
    has_fault := true
    mode := bms_pack_mode_t.BMS_MODE_FAULT
    time_in_safe_state := 30 }

/-- A latched controller, 30 s into the safe-state hold, whose pack
temperature has risen to 70 °C (outside the SW-fault safe window). -/
def ex_ctrl_latched_hot : corvus_controller_t :=
  { ex_ctrl with
    pack := { ex_ctrl.pack with temperature := 70 }
    fault_latched := true
    has_fault := true
    mode := bms_pack_mode_t.BMS_MODE_FAULT
    time_in_safe_state := 30 }

/-- A latched controller whose cell voltage reads 4.31 V (above the HW
safety over-voltage threshold). -/
def ex_ctrl_latched_hv : corvus_controller_t :=
  { ex_ctrl with
    pack := { ex_ctrl.pack with cell_voltage := 4.31 }
    fault_latched := true
    has_fault := true
    mode := bms_pack_mode_t.BMS_MODE_FAULT }

/-- `ex_ctrl` with a 1 A charge envelope (to force solver clamping). -/
def ex_ctrl_tiny : corvus_controller_t :=
  { ex_ctrl with charge_current_limit := 1 }

end Corvus

namespace Firmware

/- ===================== firmware embedding =====================
Fixed-point firmware (src/firmware): voltages in mV (`ℕ`), currents in mA
(`ℤ`), times in ms (`ℕ`, with the uint32 wrap written out where the C adds
to a uint32).  `bms_pack_data_t` and `bms_protection_state_t` are trimmed
to the fields read or written by the functions embedded here
(`bms_contactor_run`, `bms_protection_can_reset`); GPIO outputs are a
record and the two feedback reads are input arguments. -/

def UINT32_MOD : ℕ := 2 ^ 32

def BMS_PRECHARGE_TIMEOUT_MS : ℕ := 5000
def BMS_CONTACTOR_CLOSE_MS : ℕ := 100
def BMS_WELD_DETECT_MS : ℕ := 200
def BMS_PRECHARGE_VOLT_PCT : ℕ := 95
def BMS_FAULT_RESET_HOLD_MS : ℕ := 60000

inductive bms_contactor_state_t where
  | CONTACTOR_OPEN
  | CONTACTOR_PRE_CHARGE
  | CONTACTOR_CLOSING
  | CONTACTOR_CLOSED
  | CONTACTOR_OPENING
  | CONTACTOR_WELDED
deriving Repr, DecidableEq

open bms_contactor_state_t

structure bms_fault_flags_t where
  contactor_weld : Bool
deriving Repr, DecidableEq

structure bms_pack_data_t where
  pack_voltage_mv : ℕ
  pack_current_ma : ℤ
  contactor_state : bms_contactor_state_t
  fault_latched : Bool
  faults : bms_fault_flags_t
deriving Repr, DecidableEq

structure gpio_state_t where
  contactor_pos : Bool
  contactor_neg : Bool
  precharge_relay : Bool
deriving Repr, DecidableEq

def all_contactors_off : gpio_state_t :=
  { contactor_pos := false, contactor_neg := false, precharge_relay := false }

structure bms_contactor_ctx_t where
  state : bms_contactor_state_t
  state_timer_ms : ℕ
  bus_voltage_mv : ℕ
  close_requested : Bool
  open_requested : Bool
deriving Repr, DecidableEq

/-- `bms_contactor_run`: one 50 ms-period step of the contactor state
machine.  `pos_fb`/`neg_fb` are the two `hal_gpio_read` feedback inputs. -/
def bms_contactor_run (ctx : bms_contactor_ctx_t) (pack : bms_pack_data_t)
    (gpio : gpio_state_t) (pos_fb neg_fb : Bool) (dt_ms : ℕ) :
    bms_contactor_ctx_t × bms_pack_data_t × gpio_state_t :=
  let ctx := { ctx with state_timer_ms := (ctx.state_timer_ms + dt_ms) % UINT32_MOD }
  match ctx.state with
  | CONTACTOR_OPEN =>
    if ctx.close_requested then
      ({ ctx with close_requested := false, state := CONTACTOR_PRE_CHARGE,
                  state_timer_ms := 0 },
       pack,
       { gpio with contactor_neg := true, precharge_relay := true })
    else (ctx, pack, gpio)
  | CONTACTOR_PRE_CHARGE =>
    if ctx.open_requested then
      ({ ctx with open_requested := false, state := CONTACTOR_OPENING,
                  state_timer_ms := 0 },
       pack, all_contactors_off)
    else
      let target_mv := ctx.bus_voltage_mv * BMS_PRECHARGE_VOLT_PCT % UINT32_MOD / 100
      if pack.pack_voltage_mv ≥ target_mv then
        ({ ctx with state := CONTACTOR_CLOSING, state_timer_ms := 0 },
         pack,
         { gpio with contactor_pos := true, precharge_relay := false })
      else if ctx.state_timer_ms ≥ BMS_PRECHARGE_TIMEOUT_MS then
        ({ ctx with state := CONTACTOR_OPEN, state_timer_ms := 0 },
         pack, all_contactors_off)
      else (ctx, pack, gpio)
  | CONTACTOR_CLOSING =>
    if ctx.open_requested then
      ({ ctx with open_requested := false, state := CONTACTOR_OPENING,
                  state_timer_ms := 0 },
       pack, all_contactors_off)
    else if pos_fb && neg_fb then
      ({ ctx with state := CONTACTOR_CLOSED, state_timer_ms := 0 },
       { pack with contactor_state := CONTACTOR_CLOSED }, gpio)
    else if ctx.state_timer_ms ≥ BMS_CONTACTOR_CLOSE_MS then
      ({ ctx with state := CONTACTOR_OPEN, state_timer_ms := 0 },
       pack, all_contactors_off)
    else (ctx, pack, gpio)
  | CONTACTOR_CLOSED =>
    if ctx.open_requested then
      ({ ctx with open_requested := false, state := CONTACTOR_OPENING,
                  state_timer_ms := 0 },
       pack, all_contactors_off)
    else (ctx, pack, gpio)
  | CONTACTOR_OPENING =>
    let abs_current := if pack.pack_current_ma < 0 then -pack.pack_current_ma
                       else pack.pack_current_ma
    if abs_current < 1000 then
      ({ ctx with state := CONTACTOR_OPEN, state_timer_ms := 0 },
       { pack with contactor_state := CONTACTOR_OPEN }, gpio)
    else if ctx.state_timer_ms ≥ BMS_WELD_DETECT_MS then
      ({ ctx with state := CONTACTOR_WELDED },
       { pack with contactor_state := CONTACTOR_WELDED,
                   faults := { pack.faults with contactor_weld := true },
                   fault_latched := true },
       gpio)
    else (ctx, pack, gpio)
  | CONTACTOR_WELDED => (ctx, pack, gpio)

structure bms_protection_state_t where
  safe_state_ms : ℕ
deriving Repr, DecidableEq

/-- `bms_protection_can_reset` (§6.3.5). -/
def bms_protection_can_reset (prot : bms_protection_state_t)
    (pack : bms_pack_data_t) : Bool :=
  if pack.fault_latched = false then true
  else decide (prot.safe_state_ms ≥ BMS_FAULT_RESET_HOLD_MS)

/-- A pack-data record with the given latch state and no other activity. -/
def ex_pack (latched : Bool) : bms_pack_data_t :=
  { pack_voltage_mv := 700000
    pack_current_ma := 0
    contactor_state := bms_contactor_state_t.CONTACTOR_OPEN
    fault_latched := latched
    faults := { contactor_weld := false } }

end Firmware

/-! ## Theorems -/

namespace Corvus

lemma pack_update_voltage_temperature (p : corvus_pack_t) :
    (pack_update_voltage p).temperature = p.temperature := by
  simp only [pack_update_voltage]
  split <;> rfl

lemma pack_update_voltage_soc (p : corvus_pack_t) :
    (pack_update_voltage p).soc = p.soc := by
  simp only [pack_update_voltage]
  split <;> rfl

lemma temp_clamp_bounds (x : ℚ) :
    BMS_MIN_TEMPERATURE ≤
        (if x < BMS_MIN_TEMPERATURE then BMS_MIN_TEMPERATURE
         else if x > BMS_MAX_TEMPERATURE then BMS_MAX_TEMPERATURE else x)
      ∧ (if x < BMS_MIN_TEMPERATURE then BMS_MIN_TEMPERATURE
         else if x > BMS_MAX_TEMPERATURE then BMS_MAX_TEMPERATURE else x)
          ≤ BMS_MAX_TEMPERATURE := by
  split_ifs with h1 h2
  · exact ⟨le_refl _, by norm_num [BMS_MIN_TEMPERATURE, BMS_MAX_TEMPERATURE]⟩
  · exact ⟨by norm_num [BMS_MIN_TEMPERATURE, BMS_MAX_TEMPERATURE], le_refl _⟩
  · exact ⟨not_lt.mp h1, not_lt.mp h2⟩

/-- C10: `corvus_pack_init` clamps the initial SoC to [0, 1] but stores
the initial temperature exactly as supplied, for every argument; the
[−40, 200] °C temperature clamp is applied by the physics sub-step
(`pack_step_internal`, inside `corvus_pack_step`), whose output
temperature always lies in that range. -/
theorem C10_init_raw_temperature_step_clamps :
    (∀ (pid : ℤ) (soc t : ℚ),
      (corvus_pack_init pid soc t).temperature = t
        ∧ (corvus_pack_init pid soc t).soc = clamp_d soc 0 1)
    ∧ ∀ (p : corvus_pack_t) (dt cur : ℚ) (cc : Bool) (eh : ℚ),
        BMS_MIN_TEMPERATURE ≤ (pack_step_internal p dt cur cc eh).temperature
          ∧ (pack_step_internal p dt cur cc eh).temperature ≤ BMS_MAX_TEMPERATURE := by
  constructor
  · intro pid soc t
    unfold corvus_pack_init
    rw [pack_update_voltage_temperature, pack_update_voltage_soc]
    exact ⟨rfl, rfl⟩
  · intro p dt cur cc eh
    simp only [pack_step_internal, pack_update_voltage_temperature]
    exact temp_clamp_bounds _

/-- C7: `corvus_pack_step` with dt ≤ 0 returns the invalid-argument code
−1 and the unchanged pack state; with dt > 0 it returns the success
code 0. -/
theorem C7_pack_step_dt_guard (pack : corvus_pack_t) (dt current : ℚ)
    (cc : Bool) (eh : ℚ) :
    (dt ≤ 0 → corvus_pack_step pack dt current cc eh = (-1, pack))
    ∧ (0 < dt → (corvus_pack_step pack dt current cc eh).1 = 0) := by
  unfold corvus_pack_step
  constructor
  · intro h
    rw [if_pos h]
  · intro h
    rw [if_neg (not_le.mpr h)]

/-- C7 witness: concrete calls at dt = −1 (rejected, state unchanged) and
dt = 5 (accepted). -/
theorem C7_pack_step_dt_guard_witness :
    corvus_pack_step (corvus_pack_init 1 0.5 25) (-1) 50 true 0
        = (-1, corvus_pack_init 1 0.5 25)
    ∧ (corvus_pack_step (corvus_pack_init 1 0.5 25) 5 50 true 0).1 = 0 :=
  ⟨(C7_pack_step_dt_guard (corvus_pack_init 1 0.5 25) (-1) 50 true 0).1 (by norm_num),
   (C7_pack_step_dt_guard (corvus_pack_init 1 0.5 25) 5 50 true 0).2 (by norm_num)⟩

end Corvus

namespace Firmware

/-- C5 counterexample: `bms_protection_can_reset` returns true for a pack
that is not fault-latched (with a zero safe-state accumulator), so
"returns true iff the pack is fault-latched and safe-state ≥ 60 s" fails
on this input. -/
theorem C5_can_reset_counterexample :
    bms_protection_can_reset { safe_state_ms := 0 } (ex_pack false) = true
    ∧ (ex_pack false).fault_latched = false
    ∧ ¬((ex_pack false).fault_latched = true
          ∧ BMS_FAULT_RESET_HOLD_MS ≤ (0 : ℕ)) := by
  decide

/-- C5 amended: `bms_protection_can_reset` returns true iff the pack is
not fault-latched (reset of an unlatched pack is a no-op success) or the
safe-state accumulator has reached 60 s. -/
theorem C5_can_reset_iff (prot : bms_protection_state_t) (pack : bms_pack_data_t) :
    bms_protection_can_reset prot pack = true ↔
      (pack.fault_latched = false ∨ BMS_FAULT_RESET_HOLD_MS ≤ prot.safe_state_ms) := by
  unfold bms_protection_can_reset
  by_cases h : pack.fault_latched = false
  · simp [h]
  · simp [h, ge_iff_le]

/-- C4: in the contactor state machine, a run step from OPENING with
|pack current| < 1 A (1000 mA) goes to OPEN; a run step from OPENING at
which the post-increment state timer has reached 200 ms while
|pack current| ≥ 1 A goes to WELDED, sets the contactor-weld fault bit and
latches the pack fault; and a run step from WELDED stays in WELDED. -/
theorem C4_contactor_opening_weld (ctx : bms_contactor_ctx_t)
    (pack : bms_pack_data_t) (gpio : gpio_state_t) (pos_fb neg_fb : Bool)
    (dt_ms : ℕ) :
    (ctx.state = bms_contactor_state_t.CONTACTOR_OPENING →
       |pack.pack_current_ma| < 1000 →
       (bms_contactor_run ctx pack gpio pos_fb neg_fb dt_ms).1.state
         = bms_contactor_state_t.CONTACTOR_OPEN)
    ∧ (ctx.state = bms_contactor_state_t.CONTACTOR_OPENING →
       1000 ≤ |pack.pack_current_ma| →
       BMS_WELD_DETECT_MS ≤ (ctx.state_timer_ms + dt_ms) % UINT32_MOD →
       (bms_contactor_run ctx pack gpio pos_fb neg_fb dt_ms).1.state
           = bms_contactor_state_t.CONTACTOR_WELDED
         ∧ (bms_contactor_run ctx pack gpio pos_fb neg_fb dt_ms).2.1.faults.contactor_weld = true
         ∧ (bms_contactor_run ctx pack gpio pos_fb neg_fb dt_ms).2.1.fault_latched = true)
    ∧ (ctx.state = bms_contactor_state_t.CONTACTOR_WELDED →
       (bms_contactor_run ctx pack gpio pos_fb neg_fb dt_ms).1.state
         = bms_contactor_state_t.CONTACTOR_WELDED) := by
  have habs : (if pack.pack_current_ma < 0 then -pack.pack_current_ma
               else pack.pack_current_ma) = |pack.pack_current_ma| := by
    split_ifs with h0
    · exact (abs_of_neg h0).symm
    · exact (abs_of_nonneg (not_lt.mp h0)).symm
  refine ⟨?_, ?_, ?_⟩
  · intro hst hlt
    simp only [bms_contactor_run, hst, habs]
    rw [if_pos hlt]
  · intro hst hge htimer
    simp only [bms_contactor_run, hst, habs]
    rw [if_neg (not_lt.mpr hge), if_pos htimer]
    exact ⟨rfl, rfl, rfl⟩
  · intro hst
    simp only [bms_contactor_run, hst]

/-- C4 witness: the three transitions at concrete states — OPENING with
0.5 A goes OPEN; OPENING with 5 A and timer 200 ms after increment goes
WELDED with the weld fault latched; WELDED stays WELDED. -/
theorem C4_contactor_opening_weld_witness :
    (bms_contactor_run
        { state := bms_contactor_state_t.CONTACTOR_OPENING, state_timer_ms := 0,
          bus_voltage_mv := 0, close_requested := false, open_requested := false }
        { ex_pack false with pack_current_ma := 500 } all_contactors_off
        false false 50).1.state = bms_contactor_state_t.CONTACTOR_OPEN
    ∧ ((bms_contactor_run
        { state := bms_contactor_state_t.CONTACTOR_OPENING, state_timer_ms := 150,
          bus_voltage_mv := 0, close_requested := false, open_requested := false }
        { ex_pack false with pack_current_ma := -5000 } all_contactors_off
        false false 50).1.state = bms_contactor_state_t.CONTACTOR_WELDED
      ∧ (bms_contactor_run
        { state := bms_contactor_state_t.CONTACTOR_OPENING, state_timer_ms := 150,
          bus_voltage_mv := 0, close_requested := false, open_requested := false }
        { ex_pack false with pack_current_ma := -5000 } all_contactors_off
        false false 50).2.1.faults.contactor_weld = true
      ∧ (bms_contactor_run
        { state := bms_contactor_state_t.CONTACTOR_OPENING, state_timer_ms := 150,
          bus_voltage_mv := 0, close_requested := false, open_requested := false }
        { ex_pack false with pack_current_ma := -5000 } all_contactors_off
        false false 50).2.1.fault_latched = true)
    ∧ (bms_contactor_run
        { state := bms_contactor_state_t.CONTACTOR_WELDED, state_timer_ms := 0,
          bus_voltage_mv := 0, close_requested := false, open_requested := false }
        (ex_pack true) all_contactors_off false false 50).1.state
        = bms_contactor_state_t.CONTACTOR_WELDED :=
  ⟨(C4_contactor_opening_weld _ _ _ _ _ _).1 rfl (by decide),
   (C4_contactor_opening_weld _ _ _ _ _ _).2.1 rfl (by decide) (by decide),
   (C4_contactor_opening_weld _ _ _ _ _ _).2.2 rfl⟩

end Firmware

namespace Corvus

/-- C6 counterexample: a latched controller 30 s into the safe-state hold
whose temperature reads 70 °C.  The manual reset is denied, but the call
zeroes the safe-state accumulator (30 → 0), so "mutates nothing" fails. -/
theorem C6_failed_reset_counterexample :
    (corvus_controller_manual_fault_reset ex_ctrl_latched_hot).1 = false
    ∧ ex_ctrl_latched_hot.time_in_safe_state = 30
    ∧ (corvus_controller_manual_fault_reset ex_ctrl_latched_hot).2.time_in_safe_state = 0 := by
  norm_num [corvus_controller_manual_fault_reset, ex_ctrl_latched_hot, ex_ctrl,
    ex_pack_state, BMS_SE_OVER_VOLTAGE_FAULT, BMS_SE_UNDER_VOLTAGE_FAULT,
    BMS_SE_OVER_TEMP_FAULT]

/-- C6 amended: a manual fault reset on a latched controller whose
safe-state accumulator is below 60 s returns denied (false); it mutates
nothing when the present readings are inside the SW-fault safe window,
and when they are outside the window it changes exactly one field — the
safe-state accumulator, which is reset to zero. -/
theorem C6_failed_reset_no_mutation (c : corvus_controller_t)
    (hl : c.fault_latched = true)
    (hs : c.time_in_safe_state < BMS_FAULT_RESET_HOLD_TIME) :
    (corvus_controller_manual_fault_reset c).1 = false
    ∧ (reset_safe_window c → (corvus_controller_manual_fault_reset c).2 = c)
    ∧ (¬reset_safe_window c →
        (corvus_controller_manual_fault_reset c).2
          = { c with time_in_safe_state := 0 }) := by
  unfold corvus_controller_manual_fault_reset
  rw [hl]
  rw [if_neg (by simp : ¬(true = false))]
  dsimp only
  by_cases hw : reset_safe_window c
  · unfold reset_safe_window at hw
    rw [if_neg (not_not_intro hw), if_pos hs]
    exact ⟨rfl, fun _ => rfl, fun hnw => absurd hw (by unfold reset_safe_window at hnw; exact hnw)⟩
  · rw [if_pos (by unfold reset_safe_window at hw; exact hw)]
    exact ⟨rfl, fun hcontr => absurd hcontr hw, fun _ => rfl⟩

/-- C6 witness: the amended theorem applied to a latched controller inside
the safe window with a 30 s accumulator — denied and fully unchanged. -/
theorem C6_failed_reset_no_mutation_witness :
    (corvus_controller_manual_fault_reset ex_ctrl_latched_safe).1 = false
    ∧ (corvus_controller_manual_fault_reset ex_ctrl_latched_safe).2
        = ex_ctrl_latched_safe :=
  ⟨(C6_failed_reset_no_mutation ex_ctrl_latched_safe rfl
      (by norm_num [ex_ctrl_latched_safe, ex_ctrl, BMS_FAULT_RESET_HOLD_TIME])).1,
   (C6_failed_reset_no_mutation ex_ctrl_latched_safe rfl
      (by norm_num [ex_ctrl_latched_safe, ex_ctrl, BMS_FAULT_RESET_HOLD_TIME])).2.1
     (by norm_num [reset_safe_window, ex_ctrl_latched_safe, ex_ctrl, ex_pack_state,
        BMS_SE_OVER_VOLTAGE_FAULT, BMS_SE_UNDER_VOLTAGE_FAULT, BMS_SE_OVER_TEMP_FAULT])⟩

/-- C9 counterexample: `corvus_array_init` on the duplicate id list [1, 1]
still initializes both controllers (the duplicate is only detected by
`corvus_validate_unique_pack_ids`, whose result triggers a warning print;
the init function returns no code and changes the array state). -/
theorem C9_duplicate_ids_counterexample :
    corvus_validate_unique_pack_ids [1, 1] = false
    ∧ (corvus_array_init 2 [1, 1] [0.5, 0.5] [25, 25]).num_packs = 2
    ∧ (corvus_array_init 2 [1, 1] [0.5, 0.5] [25, 25]).controllers.length = 2
    ∧ ((corvus_array_init 2 [1, 1] [0.5, 0.5] [25, 25]).controllers.map
         fun c => c.pack.pack_id) = [1, 1] := by
  decide

/-- C9 amended: `corvus_validate_unique_pack_ids` detects duplicates
(true iff the id list has no duplicate), but `corvus_array_init` has no
return code and initializes min(n, BMS_MAX_PACKS) controllers regardless
of duplicate ids. -/
theorem C9_array_init_ignores_duplicates :
    (∀ ids : List ℤ, corvus_validate_unique_pack_ids ids = true ↔ ids.Nodup)
    ∧ ∀ (num : ℤ) (ids : List ℤ) (socs temps : List ℚ), 0 < num →
        (corvus_array_init num ids socs temps).num_packs = min num BMS_MAX_PACKS
        ∧ (corvus_array_init num ids socs temps).controllers.length
            = (min num BMS_MAX_PACKS).toNat := by
  constructor
  · intro ids
    induction ids with
    | nil => simp [corvus_validate_unique_pack_ids]
    | cons x xs ih =>
      simp only [corvus_validate_unique_pack_ids, Bool.and_eq_true,
        Bool.not_eq_true', List.nodup_cons, ih, List.contains, List.elem_eq_mem,
        decide_eq_false_iff_not]
  · intro num ids socs temps h
    unfold corvus_array_init
    rw [if_neg (not_le.mpr h)]
    exact ⟨rfl, by simp⟩

/-- C9 witness: the characterizations applied at concrete inputs. -/
theorem C9_array_init_ignores_duplicates_witness :
    (corvus_validate_unique_pack_ids [3, 4] = true ↔ ([3, 4] : List ℤ).Nodup)
    ∧ (corvus_array_init 2 [3, 4] [0.5, 0.5] [25, 25]).num_packs
        = min 2 BMS_MAX_PACKS :=
  ⟨C9_array_init_ignores_duplicates.1 [3, 4],
   (C9_array_init_ignores_duplicates.2 2 [3, 4] [0.5, 0.5] [25, 25]
      (by norm_num)).1⟩

end Corvus

namespace Corvus

lemma linterp_piece (bp val : List ℚ) (x : ℚ) (lo : ℕ)
    (hlo : bracket_lo bp (clamp_d x (bp.getD 0 0) (bp.getD (bp.length - 1) 0)) = lo) :
    linterp bp val x =
      (if bp.getD (lo + 1) 0 - bp.getD lo 0 < 1 / 10 ^ 15 then val.getD lo 0
       else val.getD lo 0 + (val.getD (lo + 1) 0 - val.getD lo 0) *
         ((clamp_d x (bp.getD 0 0) (bp.getD (bp.length - 1) 0) - bp.getD lo 0) /
           (bp.getD (lo + 1) 0 - bp.getD lo 0))) := by
  simp only [linterp, hlo]

lemma linterp_temp_charge_low (temp : ℚ) (h : temp ≤ 5) :
    linterp temp_charge_bp temp_charge_cr temp = 0 := by
  have h0 : temp_charge_bp.getD 0 0 = -25 := rfl
  have h7 : temp_charge_bp.getD (temp_charge_bp.length - 1) 0 = 65 := rfl
  have hxle : clamp_d temp (-25) 65 ≤ 5 := by
    unfold clamp_d; split_ifs <;> linarith
  have hshow : bracket_lo temp_charge_bp (clamp_d temp (-25) 65)
      = bracket_go temp_charge_bp (clamp_d temp (-25) 65) 6 := rfl
  have g6 : temp_charge_bp.getD 6 0 = 55 := rfl
  have g5 : temp_charge_bp.getD 5 0 = 45 := rfl
  have g4 : temp_charge_bp.getD 4 0 = 35 := rfl
  have g3 : temp_charge_bp.getD 3 0 = 15 := rfl
  have g2 : temp_charge_bp.getD 2 0 = 5 := rfl
  have g1 : temp_charge_bp.getD 1 0 = 0 := rfl
  by_cases h5 : (5 : ℚ) ≤ clamp_d temp (-25) 65
  · have hxeq : clamp_d temp (-25) 65 = 5 := le_antisymm hxle h5
    have hlo : bracket_lo temp_charge_bp
        (clamp_d temp (temp_charge_bp.getD 0 0)
          (temp_charge_bp.getD (temp_charge_bp.length - 1) 0)) = 2 := by
      rw [h0, h7, hshow, hxeq]
      simp only [bracket_go, g6, g5, g4, g3, g2]
      norm_num
    rw [linterp_piece _ _ _ _ hlo, h0, h7, hxeq, g3, g2]
    norm_num [temp_charge_cr]
  · by_cases h0x : (0 : ℚ) ≤ clamp_d temp (-25) 65
    · have hlo : bracket_lo temp_charge_bp
          (clamp_d temp (temp_charge_bp.getD 0 0)
            (temp_charge_bp.getD (temp_charge_bp.length - 1) 0)) = 1 := by
        rw [h0, h7, hshow]
        simp only [bracket_go, g6, g5, g4, g3, g2, g1]
        split_ifs <;> first | rfl | linarith
      rw [linterp_piece _ _ _ _ hlo, g2, g1]
      norm_num [temp_charge_cr]
    · have hlo : bracket_lo temp_charge_bp
          (clamp_d temp (temp_charge_bp.getD 0 0)
            (temp_charge_bp.getD (temp_charge_bp.length - 1) 0)) = 0 := by
        rw [h0, h7, hshow]
        simp only [bracket_go, g6, g5, g4, g3, g2, g1]
        split_ifs <;> first | rfl | linarith
      rw [linterp_piece _ _ _ _ hlo, g1, h0]
      norm_num [temp_charge_cr]

lemma linterp_temp_charge_high (temp : ℚ) (h : 55 ≤ temp) :
    linterp temp_charge_bp temp_charge_cr temp = 0 := by
  have h0 : temp_charge_bp.getD 0 0 = -25 := rfl
  have h7 : temp_charge_bp.getD (temp_charge_bp.length - 1) 0 = 65 := rfl
  have g6 : temp_charge_bp.getD 6 0 = 55 := rfl
  have hxge : (55 : ℚ) ≤ clamp_d temp (-25) 65 := by
    unfold clamp_d; split_ifs <;> linarith
  have hshow : bracket_lo temp_charge_bp (clamp_d temp (-25) 65)
      = bracket_go temp_charge_bp (clamp_d temp (-25) 65) 6 := rfl
  have hlo : bracket_lo temp_charge_bp
      (clamp_d temp (temp_charge_bp.getD 0 0)
        (temp_charge_bp.getD (temp_charge_bp.length - 1) 0)) = 6 := by
    rw [h0, h7, hshow]
    simp only [bracket_go, g6]
    rw [if_pos hxge]
  rw [linterp_piece _ _ _ _ hlo, g6]
  norm_num [temp_charge_bp, temp_charge_cr]

lemma linterp_temp_disch_low (temp : ℚ) (h : temp ≤ -25) :
    linterp temp_disch_bp temp_disch_cr temp = 0.2 := by
  have h0 : temp_disch_bp.getD 0 0 = -25 := rfl
  have h14 : temp_disch_bp.getD (temp_disch_bp.length - 1) 0 = 70 := rfl
  have hxeq : clamp_d temp (-25) 70 = -25 := by
    unfold clamp_d; split_ifs <;> linarith
  have hshow : bracket_lo temp_disch_bp (clamp_d temp (-25) 70)
      = bracket_go temp_disch_bp (clamp_d temp (-25) 70) 13 := rfl
  have hlo : bracket_lo temp_disch_bp
      (clamp_d temp (temp_disch_bp.getD 0 0)
        (temp_disch_bp.getD (temp_disch_bp.length - 1) 0)) = 0 := by
    rw [h0, h14, hshow, hxeq]
    norm_num [bracket_go, temp_disch_bp]
  rw [linterp_piece _ _ _ _ hlo, h0, h14, hxeq]
  norm_num [temp_disch_bp, temp_disch_cr]

lemma linterp_temp_disch_high (temp : ℚ) (h : 70 ≤ temp) :
    linterp temp_disch_bp temp_disch_cr temp = 0 := by
  have h0 : temp_disch_bp.getD 0 0 = -25 := rfl
  have h14 : temp_disch_bp.getD (temp_disch_bp.length - 1) 0 = 70 := rfl
  have hxeq : clamp_d temp (-25) 70 = 70 := by
    unfold clamp_d; split_ifs <;> linarith
  have hshow : bracket_lo temp_disch_bp (clamp_d temp (-25) 70)
      = bracket_go temp_disch_bp (clamp_d temp (-25) 70) 13 := rfl
  have hlo : bracket_lo temp_disch_bp
      (clamp_d temp (temp_disch_bp.getD 0 0)
        (temp_disch_bp.getD (temp_disch_bp.length - 1) 0)) = 13 := by
    rw [h0, h14, hshow, hxeq]
    norm_num [bracket_go, temp_disch_bp]
  rw [linterp_piece _ _ _ _ hlo, h0, h14, hxeq]
  norm_num [temp_disch_bp, temp_disch_cr]

/-- C8 counterexample: the temperature-derating discharge limit is NOT 0
below −25 °C (at −30 °C it is 0.2 C = 25.6 A for the 128 Ah pack) and NOT
0 just above 65 °C (at 67 °C it is 15.36 A); it only reaches 0 at 70 °C. -/
theorem C8_temp_derating_counterexample :
    (corvus_temp_current_limit (-30) BMS_NOMINAL_CAPACITY_AH).discharge = 128 / 5
    ∧ (corvus_temp_current_limit 67 BMS_NOMINAL_CAPACITY_AH).discharge = 384 / 25
    ∧ (128 : ℚ) / 5 ≠ 0 ∧ (384 : ℚ) / 25 ≠ 0 := by
  refine ⟨?_, ?_, by norm_num, by norm_num⟩
  · unfold corvus_temp_current_limit
    rw [linterp_temp_disch_low (-30) (by norm_num)]
    norm_num [BMS_NOMINAL_CAPACITY_AH, max_d]
  · unfold corvus_temp_current_limit
    have hshow : bracket_lo temp_disch_bp (clamp_d 67 (-25) 70)
        = bracket_go temp_disch_bp (clamp_d 67 (-25) 70) 13 := rfl
    have hxeq : clamp_d (67 : ℚ) (-25) 70 = 67 := by
      unfold clamp_d; split_ifs <;> linarith
    have hlo : bracket_lo temp_disch_bp
        (clamp_d 67 (temp_disch_bp.getD 0 0)
          (temp_disch_bp.getD (temp_disch_bp.length - 1) 0)) = 13 := by
      rw [show temp_disch_bp.getD 0 0 = -25 from rfl,
          show temp_disch_bp.getD (temp_disch_bp.length - 1) 0 = 70 from rfl,
          hshow, hxeq]
      norm_num [bracket_go, temp_disch_bp]
    rw [linterp_piece _ _ _ _ hlo]
    norm_num [temp_disch_bp, temp_disch_cr, clamp_d, BMS_NOMINAL_CAPACITY_AH, max_d]

/-- C8 amended: for every capacity ≥ 0, `corvus_temp_current_limit`
returns a charge limit of 0 for every temperature at or below 5 °C and at
or above 55 °C; its discharge limit is 0.2 C (not 0) for every temperature
at or below −25 °C, and 0 for every temperature at or above 70 °C (not
65 °C). -/
theorem C8_temp_derating_zeros (temp cap : ℚ) (hcap : 0 ≤ cap) :
    (temp ≤ 5 → (corvus_temp_current_limit temp cap).charge = 0)
    ∧ (55 ≤ temp → (corvus_temp_current_limit temp cap).charge = 0)
    ∧ (temp ≤ -25 → (corvus_temp_current_limit temp cap).discharge = 0.2 * cap)
    ∧ (70 ≤ temp → (corvus_temp_current_limit temp cap).discharge = 0) := by
  refine ⟨fun h => ?_, fun h => ?_, fun h => ?_, fun h => ?_⟩
  · unfold corvus_temp_current_limit
    rw [linterp_temp_charge_low temp h]
    norm_num [max_d]
  · unfold corvus_temp_current_limit
    rw [linterp_temp_charge_high temp h]
    norm_num [max_d]
  · unfold corvus_temp_current_limit
    rw [linterp_temp_disch_low temp h]
    have hnn : (0 : ℚ) ≤ 0.2 * cap := by positivity
    show max_d 0 (0.2 * cap) = 0.2 * cap
    unfold max_d
    rw [if_neg (by linarith)]
  · unfold corvus_temp_current_limit
    rw [linterp_temp_disch_high temp h]
    norm_num [max_d]

/-- C8 witness: the amended theorem applied at 3 °C, 60 °C, −30 °C and
75 °C with the nominal 128 Ah capacity. -/
theorem C8_temp_derating_zeros_witness :
    (corvus_temp_current_limit 3 128).charge = 0
    ∧ (corvus_temp_current_limit 60 128).charge = 0
    ∧ (corvus_temp_current_limit (-30) 128).discharge = 0.2 * 128
    ∧ (corvus_temp_current_limit 75 128).discharge = 0 :=
  ⟨(C8_temp_derating_zeros 3 128 (by norm_num)).1 (by norm_num),
   (C8_temp_derating_zeros 60 128 (by norm_num)).2.1 (by norm_num),
   (C8_temp_derating_zeros (-30) 128 (by norm_num)).2.2.1 (by norm_num),
   (C8_temp_derating_zeros 75 128 (by norm_num)).2.2.2 (by norm_num)⟩

end Corvus

namespace Corvus

lemma warn_ov_check_pres (c : corvus_controller_t) (dt : ℚ) :
    (warn_ov_check c dt).2.pack = c.pack
    ∧ (warn_ov_check c dt).2.hw_ov_timer = c.hw_ov_timer
    ∧ (warn_ov_check c dt).2.hw_fault_latched = c.hw_fault_latched := by
  simp only [warn_ov_check]
  split_ifs <;> exact ⟨rfl, rfl, rfl⟩

lemma warn_uv_check_pres (c : corvus_controller_t) (dt : ℚ) :
    (warn_uv_check c dt).2.pack = c.pack
    ∧ (warn_uv_check c dt).2.hw_ov_timer = c.hw_ov_timer
    ∧ (warn_uv_check c dt).2.hw_fault_latched = c.hw_fault_latched := by
  simp only [warn_uv_check]
  split_ifs <;> exact ⟨rfl, rfl, rfl⟩

lemma warn_ot_check_pres (c : corvus_controller_t) (dt : ℚ) :
    (warn_ot_check c dt).2.pack = c.pack
    ∧ (warn_ot_check c dt).2.hw_ov_timer = c.hw_ov_timer
    ∧ (warn_ot_check c dt).2.hw_fault_latched = c.hw_fault_latched := by
  simp only [warn_ot_check]
  split_ifs <;> exact ⟨rfl, rfl, rfl⟩

lemma oc_warn_check_pres (c : corvus_controller_t) (dt : ℚ) :
    (oc_warn_check c dt).2.2.pack = c.pack
    ∧ (oc_warn_check c dt).2.2.hw_ov_timer = c.hw_ov_timer
    ∧ (oc_warn_check c dt).2.2.hw_fault_latched = c.hw_fault_latched := by
  simp only [oc_warn_check]
  split_ifs <;> exact ⟨rfl, rfl, rfl⟩

lemma update_warning_state_pres (c : corvus_controller_t) (dt : ℚ)
    (w1 w2 w3 w4 : Bool) :
    (update_warning_state c dt w1 w2 w3 w4).pack = c.pack
    ∧ (update_warning_state c dt w1 w2 w3 w4).hw_ov_timer = c.hw_ov_timer
    ∧ (update_warning_state c dt w1 w2 w3 w4).hw_fault_latched = c.hw_fault_latched := by
  simp only [update_warning_state]
  split_ifs <;> exact ⟨rfl, rfl, rfl⟩

lemma oc_fault_check_pres (c : corvus_controller_t) (dt : ℚ) (oc : Bool) :
    (oc_fault_check c dt oc).pack = c.pack
    ∧ (oc_fault_check c dt oc).hw_ov_timer = c.hw_ov_timer
    ∧ (oc_fault_check c dt oc).hw_fault_latched = c.hw_fault_latched := by
  simp only [oc_fault_check, trigger_sw_fault]
  split_ifs <;> exact ⟨rfl, rfl, rfl⟩

lemma ov_fault_check_pres (c : corvus_controller_t) (dt : ℚ) :
    (ov_fault_check c dt).pack = c.pack
    ∧ (ov_fault_check c dt).hw_ov_timer = c.hw_ov_timer
    ∧ (ov_fault_check c dt).hw_fault_latched = c.hw_fault_latched := by
  simp only [ov_fault_check, trigger_sw_fault]
  split_ifs <;> exact ⟨rfl, rfl, rfl⟩

lemma uv_fault_check_pres (c : corvus_controller_t) (dt : ℚ) :
    (uv_fault_check c dt).pack = c.pack
    ∧ (uv_fault_check c dt).hw_ov_timer = c.hw_ov_timer
    ∧ (uv_fault_check c dt).hw_fault_latched = c.hw_fault_latched := by
  simp only [uv_fault_check, trigger_sw_fault]
  split_ifs <;> exact ⟨rfl, rfl, rfl⟩

lemma ot_fault_check_pres (c : corvus_controller_t) (dt : ℚ) :
    (ot_fault_check c dt).pack = c.pack
    ∧ (ot_fault_check c dt).hw_ov_timer = c.hw_ov_timer
    ∧ (ot_fault_check c dt).hw_fault_latched = c.hw_fault_latched := by
  simp only [ot_fault_check, trigger_sw_fault]
  split_ifs <;> exact ⟨rfl, rfl, rfl⟩

lemma check_alarms_pres (c : corvus_controller_t) (dt : ℚ) :
    (check_alarms c dt).pack = c.pack
    ∧ (check_alarms c dt).hw_ov_timer = c.hw_ov_timer
    ∧ (check_alarms c dt).hw_fault_latched = c.hw_fault_latched := by
  refine ⟨?_, ?_, ?_⟩
  · simp only [check_alarms]
    rw [(ot_fault_check_pres _ _).1, (uv_fault_check_pres _ _).1,
        (ov_fault_check_pres _ _).1, (oc_fault_check_pres _ _ _).1,
        (update_warning_state_pres _ _ _ _ _ _).1, (oc_warn_check_pres _ _).1,
        (warn_ot_check_pres _ _).1, (warn_uv_check_pres _ _).1,
        (warn_ov_check_pres _ _).1]
  · simp only [check_alarms]
    rw [(ot_fault_check_pres _ _).2.1, (uv_fault_check_pres _ _).2.1,
        (ov_fault_check_pres _ _).2.1, (oc_fault_check_pres _ _ _).2.1,
        (update_warning_state_pres _ _ _ _ _ _).2.1, (oc_warn_check_pres _ _).2.1,
        (warn_ot_check_pres _ _).2.1, (warn_uv_check_pres _ _).2.1,
        (warn_ov_check_pres _ _).2.1]
  · simp only [check_alarms]
    rw [(ot_fault_check_pres _ _).2.2, (uv_fault_check_pres _ _).2.2,
        (ov_fault_check_pres _ _).2.2, (oc_fault_check_pres _ _ _).2.2,
        (update_warning_state_pres _ _ _ _ _ _).2.2, (oc_warn_check_pres _ _).2.2,
        (warn_ot_check_pres _ _).2.2, (warn_uv_check_pres _ _).2.2,
        (warn_ov_check_pres _ _).2.2]

lemma update_safe_state_timer_pres (c : corvus_controller_t) (dt : ℚ) :
    (update_safe_state_timer c dt).pack = c.pack
    ∧ (update_safe_state_timer c dt).hw_ov_timer = c.hw_ov_timer
    ∧ (update_safe_state_timer c dt).hw_fault_latched = c.hw_fault_latched := by
  simp only [update_safe_state_timer]
  split_ifs <;> exact ⟨rfl, rfl, rfl⟩

lemma complete_connection_pres (c : corvus_controller_t) (bus : ℚ) :
    (corvus_controller_complete_connection c bus).2.pack = c.pack
    ∧ (corvus_controller_complete_connection c bus).2.hw_ov_timer = c.hw_ov_timer
    ∧ (corvus_controller_complete_connection c bus).2.hw_fault_latched
        = c.hw_fault_latched := by
  simp only [corvus_controller_complete_connection]
  split_ifs <;> exact ⟨rfl, rfl, rfl⟩

lemma hw_uv_check_pres (c : corvus_controller_t) (dt : ℚ) :
    (hw_uv_check c dt).pack = c.pack
    ∧ (hw_uv_check c dt).hw_ov_timer = c.hw_ov_timer
    ∧ (c.hw_fault_latched = true → (hw_uv_check c dt).hw_fault_latched = true) := by
  simp only [hw_uv_check, trigger_hw_fault]
  split_ifs <;> exact ⟨rfl, rfl, fun hh => by simp [hh]⟩

lemma hw_ot_check_pres (c : corvus_controller_t) (dt : ℚ) :
    (hw_ot_check c dt).pack = c.pack
    ∧ (hw_ot_check c dt).hw_ov_timer = c.hw_ov_timer
    ∧ (c.hw_fault_latched = true → (hw_ot_check c dt).hw_fault_latched = true) := by
  simp only [hw_ot_check, trigger_hw_fault]
  split_ifs <;> exact ⟨rfl, rfl, fun hh => by simp [hh]⟩

lemma hw_ov_check_progress (c : corvus_controller_t) (dt : ℚ)
    (hv : BMS_HW_SAFETY_OVER_VOLTAGE ≤ c.pack.cell_voltage) :
    (hw_ov_check c dt).pack = c.pack
    ∧ (hw_ov_check c dt).hw_ov_timer = c.hw_ov_timer + dt
    ∧ ((1 ≤ c.hw_ov_timer + dt ∨ c.hw_fault_latched = true) →
        (hw_ov_check c dt).hw_fault_latched = true) := by
  simp only [hw_ov_check, trigger_hw_fault]
  rw [if_pos hv]
  split_ifs with h1
  · exact ⟨rfl, rfl, fun _ => rfl⟩
  · refine ⟨rfl, rfl, fun hor => ?_⟩
    rcases hor with h | h
    · exact absurd h (by simpa [ge_iff_le] using h1)
    · exact h

lemma check_hw_safety_progress (c : corvus_controller_t) (dt : ℚ)
    (hv : BMS_HW_SAFETY_OVER_VOLTAGE ≤ c.pack.cell_voltage) :
    (check_hw_safety c dt).pack = c.pack
    ∧ (check_hw_safety c dt).hw_ov_timer = c.hw_ov_timer + dt
    ∧ ((1 ≤ c.hw_ov_timer + dt ∨ c.hw_fault_latched = true) →
        (check_hw_safety c dt).hw_fault_latched = true) := by
  unfold check_hw_safety
  obtain ⟨p1, t1, f1⟩ := hw_ov_check_progress c dt hv
  obtain ⟨p2, t2, f2⟩ := hw_uv_check_pres (hw_ov_check c dt) dt
  obtain ⟨p3, t3, f3⟩ := hw_ot_check_pres (hw_uv_check (hw_ov_check c dt) dt) dt
  refine ⟨by rw [p3, p2, p1], by rw [t3, t2, t1], fun hor => f3 (f2 (f1 hor))⟩

lemma controller_step_fields (c : corvus_controller_t) (dt bus : ℚ) :
    (corvus_controller_step c dt bus).pack
      = (update_safe_state_timer (check_alarms (check_hw_safety c dt) dt) dt).pack
    ∧ (corvus_controller_step c dt bus).hw_ov_timer
      = (update_safe_state_timer (check_alarms (check_hw_safety c dt) dt) dt).hw_ov_timer
    ∧ (corvus_controller_step c dt bus).hw_fault_latched
      = (update_safe_state_timer (check_alarms (check_hw_safety c dt) dt) dt).hw_fault_latched := by
  simp only [corvus_controller_step]
  split_ifs with h1 h2 h3
  · exact ⟨rfl, rfl, rfl⟩
  · exact ⟨by rw [(complete_connection_pres _ _).1],
           by rw [(complete_connection_pres _ _).2.1],
           by rw [(complete_connection_pres _ _).2.2]⟩
  · exact ⟨rfl, rfl, rfl⟩
  · exact ⟨rfl, rfl, rfl⟩

lemma controller_step_hw_progress (c : corvus_controller_t) (dt bus : ℚ)
    (hv : BMS_HW_SAFETY_OVER_VOLTAGE ≤ c.pack.cell_voltage) :
    (corvus_controller_step c dt bus).pack = c.pack
    ∧ (corvus_controller_step c dt bus).hw_ov_timer = c.hw_ov_timer + dt
    ∧ ((1 ≤ c.hw_ov_timer + dt ∨ c.hw_fault_latched = true) →
        (corvus_controller_step c dt bus).hw_fault_latched = true) := by
  obtain ⟨sp, st, sf⟩ := controller_step_fields c dt bus
  obtain ⟨hp, ht, hf⟩ := check_hw_safety_progress c dt hv
  obtain ⟨ap, at', af⟩ := check_alarms_pres (check_hw_safety c dt) dt
  obtain ⟨up, ut, uf⟩ :=
    update_safe_state_timer_pres (check_alarms (check_hw_safety c dt) dt) dt
  refine ⟨by rw [sp, up, ap, hp], by rw [st, ut, at', ht], fun hor => ?_⟩
  rw [sf, uf, af]
  exact hf hor

end Corvus

namespace Corvus

lemma hw_ov_check_flag_mono (c : corvus_controller_t) (dt : ℚ)
    (hh : c.hw_fault_latched = true) :
    (hw_ov_check c dt).hw_fault_latched = true := by
  simp only [hw_ov_check, trigger_hw_fault]
  split_ifs <;> simp [hh]

lemma check_hw_safety_flag_mono (c : corvus_controller_t) (dt : ℚ)
    (hh : c.hw_fault_latched = true) :
    (check_hw_safety c dt).hw_fault_latched = true := by
  unfold check_hw_safety
  exact (hw_ot_check_pres _ _).2.2 ((hw_uv_check_pres _ _).2.2
    (hw_ov_check_flag_mono c dt hh))

lemma controller_step_hw_flag_mono (c : corvus_controller_t) (dt bus : ℚ)
    (hh : c.hw_fault_latched = true) :
    (corvus_controller_step c dt bus).hw_fault_latched = true := by
  rw [(controller_step_fields c dt bus).2.2,
      (update_safe_state_timer_pres _ _).2.2, (check_alarms_pres _ _).2.2]
  exact check_hw_safety_flag_mono c dt hh

lemma run_steps_hw_flag_mono (bus : ℚ) :
    ∀ (dts : List ℚ) (c : corvus_controller_t),
      c.hw_fault_latched = true →
      (corvus_controller_run_steps c bus dts).hw_fault_latched = true
  | [], _, hh => hh
  | d :: rest, c, hh =>
    run_steps_hw_flag_mono bus rest _ (controller_step_hw_flag_mono c d bus hh)

lemma run_steps_hw_latch (bus : ℚ) (dts : List ℚ) :
    ∀ c : corvus_controller_t,
      BMS_HW_SAFETY_OVER_VOLTAGE ≤ c.pack.cell_voltage →
      1 ≤ c.hw_ov_timer + dts.sum → dts ≠ [] →
      (corvus_controller_run_steps c bus dts).hw_fault_latched = true := by
  induction dts with
  | nil => exact fun c _ _ hne => absurd rfl hne
  | cons d rest ih =>
    intro c hv hsum _
    obtain ⟨hp, ht, hf⟩ := controller_step_hw_progress c d bus hv
    show (corvus_controller_run_steps (corvus_controller_step c d bus) bus
      rest).hw_fault_latched = true
    rcases le_or_lt 1 (c.hw_ov_timer + d) with hcase | hcase
    · exact run_steps_hw_flag_mono bus rest _ (hf (Or.inl hcase))
    · cases rest with
      | nil =>
        simp only [List.sum_cons, List.sum_nil, add_zero] at hsum
        exact absurd hsum (not_le.mpr hcase)
      | cons r rs =>
        apply ih (corvus_controller_step c d bus)
        · rw [hp]; exact hv
        · rw [ht]
          simp only [List.sum_cons] at hsum ⊢
          linarith
        · simp

/-- C3: the HW-safety sub-pass runs even when a software fault is latched.
For every controller with the fault latch already set, a non-negative HW
over-voltage timer, and a cell voltage at or above 4.300 V, any sequence
of protection runs (`corvus_controller_step`) with positive dt values
totalling at least 1 s ends with the HW-latched flag set. -/
theorem C3_hw_safety_independent (c : corvus_controller_t) (bus : ℚ)
    (dts : List ℚ)
    (hlatched : c.fault_latched = true)
    (ht0 : 0 ≤ c.hw_ov_timer)
    (hv : BMS_HW_SAFETY_OVER_VOLTAGE ≤ c.pack.cell_voltage)
    (hpos : ∀ d ∈ dts, 0 < d)
    (hsum : 1 ≤ dts.sum) :
    (corvus_controller_run_steps c bus dts).hw_fault_latched = true := by
  have hne : dts ≠ [] := by
    intro h
    rw [h] at hsum
    simp only [List.sum_nil] at hsum
    linarith
  exact run_steps_hw_latch bus dts c hv (by linarith) hne

/-- C3 witness: a SW-latched controller reading 4.31 V per cell gets the
HW-latched flag after a single 1 s protection run. -/
theorem C3_hw_safety_independent_witness :
    (corvus_controller_run_steps ex_ctrl_latched_hv 1100 [1]).hw_fault_latched = true :=
  C3_hw_safety_independent ex_ctrl_latched_hv 1100 [1] rfl
    (by norm_num [ex_ctrl_latched_hv, ex_ctrl])
    (by norm_num [ex_ctrl_latched_hv, ex_ctrl, ex_pack_state, BMS_HW_SAFETY_OVER_VOLTAGE])
    (by intro d hd; simp only [List.mem_singleton] at hd; rw [hd]; norm_num)
    (by norm_num)

end Corvus

namespace Corvus

lemma clamped_sum_cons (s : solver_slot_t) (rest : List solver_slot_t) :
    clamped_sum (s :: rest)
      = (if s.is_clamped = true then s.clamped_val else 0) + clamped_sum rest := by
  simp only [clamped_sum, List.filter_cons]
  split_ifs with h
  · simp
  · simp

lemma active_sum_g_cons (s : solver_slot_t) (rest : List solver_slot_t) :
    active_sum_g (s :: rest)
      = (if s.active = true then 1 / pack_r s.ctrl else 0) + active_sum_g rest := by
  simp only [active_sum_g, List.filter_cons]
  split_ifs with h
  · simp
  · simp

lemma active_sum_ocv_g_cons (s : solver_slot_t) (rest : List solver_slot_t) :
    active_sum_ocv_g (s :: rest)
      = (if s.active = true then pack_ocv_total s.ctrl / pack_r s.ctrl else 0)
        + active_sum_ocv_g rest := by
  simp only [active_sum_ocv_g, List.filter_cons]
  split_ifs with h
  · simp
  · simp

lemma current_sum_cons (s : solver_slot_t) (rest : List solver_slot_t) :
    current_sum (s :: rest) = s.current + current_sum rest := by
  simp [current_sum]

lemma count_clamped_cons (s : solver_slot_t) (rest : List solver_slot_t) :
    count_clamped (s :: rest)
      = (if s.is_clamped = true then 1 else 0) + count_clamped rest := by
  simp only [count_clamped, List.filter_cons]
  split_ifs with h
  · simp [Nat.add_comm]
  · simp

lemma slots_wf_head {s : solver_slot_t} {rest : List solver_slot_t}
    (hwf : slots_wf (s :: rest)) : s.active = !s.is_clamped :=
  hwf s (List.mem_cons_self _ _)

lemma slots_wf_tail {s : solver_slot_t} {rest : List solver_slot_t}
    (hwf : slots_wf (s :: rest)) : slots_wf rest :=
  fun x hx => hwf x (List.mem_cons_of_mem _ hx)

lemma active_not_clamped {s : solver_slot_t} (hwfs : s.active = !s.is_clamped)
    (h1 : s.active = true) : s.is_clamped = false := by
  rw [h1] at hwfs
  simpa using hwfs.symm

lemma inactive_clamped {s : solver_slot_t} (hwfs : s.active = !s.is_clamped)
    (h1 : ¬s.active = true) : s.is_clamped = true := by
  rw [Bool.not_eq_true] at h1
  rw [h1] at hwfs
  simpa using hwfs.symm

lemma count_clamped_cons_true (s : solver_slot_t) (rest : List solver_slot_t)
    (h : s.is_clamped = true) :
    count_clamped (s :: rest) = 1 + count_clamped rest := by
  rw [count_clamped_cons, if_pos h]

lemma count_clamped_cons_false (s : solver_slot_t) (rest : List solver_slot_t)
    (h : s.is_clamped = false) :
    count_clamped (s :: rest) = count_clamped rest := by
  rw [count_clamped_cons, h]
  simp

lemma solve_sweep_count (v : ℚ) (iseq : Bool) :
    ∀ (slots : List solver_slot_t) (residual : ℚ), slots_wf slots →
      count_clamped slots ≤ count_clamped (solve_sweep v iseq slots residual).1
      ∧ ((solve_sweep v iseq slots residual).2.2 = true →
          count_clamped slots < count_clamped (solve_sweep v iseq slots residual).1) := by
  intro slots
  induction slots with
  | nil =>
    intro residual _
    simp [solve_sweep]
  | cons s rest ih =>
    intro residual hwf
    have hwfr := slots_wf_tail hwf
    have hwfs := slots_wf_head hwf
    simp only [solve_sweep]
    by_cases h1 : s.active = true
    · rw [if_pos h1]
      have hsc := active_not_clamped hwfs h1
      by_cases h2 : (v - pack_ocv_total s.ctrl) / pack_r s.ctrl > 0
          ∧ (v - pack_ocv_total s.ctrl) / pack_r s.ctrl > s.ctrl.charge_current_limit
      · rw [if_pos h2]
        have hle := (ih (if iseq = true then residual
          else residual - s.ctrl.charge_current_limit) hwfr).1
        refine ⟨?_, fun _ => ?_⟩ <;>
        · simp only [count_clamped_cons, hsc]
          norm_num
          omega
      · rw [if_neg h2]
        by_cases h3 : (v - pack_ocv_total s.ctrl) / pack_r s.ctrl < 0
            ∧ -((v - pack_ocv_total s.ctrl) / pack_r s.ctrl)
                > s.ctrl.discharge_current_limit
        · rw [if_pos h3]
          have hle := (ih (if iseq = true then residual
            else residual + s.ctrl.discharge_current_limit) hwfr).1
          refine ⟨?_, fun _ => ?_⟩ <;>
          · simp only [count_clamped_cons, hsc]
            norm_num
            omega
        · rw [if_neg h3]
          obtain ⟨hle, hlt⟩ := ih residual hwfr
          refine ⟨?_, fun ha => ?_⟩
          · simp only [count_clamped_cons, hsc]
            norm_num
            omega
          · have := hlt ha
            simp only [count_clamped_cons, hsc]
            norm_num
            omega
    · rw [if_neg h1]
      have hsc := inactive_clamped hwfs h1
      obtain ⟨hle, hlt⟩ := ih residual hwfr
      refine ⟨?_, fun ha => ?_⟩
      · simp only [count_clamped_cons, hsc]
        norm_num
        omega
      · have := hlt ha
        simp only [count_clamped_cons, hsc]
        norm_num
        omega

lemma solve_sweep_clamp_mono (v : ℚ) (iseq : Bool) :
    ∀ (slots : List solver_slot_t) (residual : ℚ),
      List.Forall₂ (fun s s' : solver_slot_t =>
        (s.is_clamped = true → s'.is_clamped = true)
        ∧ (s'.active = true → s.active = true)) slots
        (solve_sweep v iseq slots residual).1 := by
  intro slots
  induction slots with
  | nil =>
    intro r
    simp [solve_sweep]
  | cons s rest ih =>
    intro r
    simp only [solve_sweep]
    by_cases h1 : s.active = true
    · rw [if_pos h1]
      by_cases h2 : (v - pack_ocv_total s.ctrl) / pack_r s.ctrl > 0
          ∧ (v - pack_ocv_total s.ctrl) / pack_r s.ctrl > s.ctrl.charge_current_limit
      · rw [if_pos h2]
        exact List.Forall₂.cons ⟨fun _ => rfl, fun _ => h1⟩ (ih _)
      · rw [if_neg h2]
        by_cases h3 : (v - pack_ocv_total s.ctrl) / pack_r s.ctrl < 0
            ∧ -((v - pack_ocv_total s.ctrl) / pack_r s.ctrl)
                > s.ctrl.discharge_current_limit
        · rw [if_pos h3]
          exact List.Forall₂.cons ⟨fun _ => rfl, fun _ => h1⟩ (ih _)
        · rw [if_neg h3]
          exact List.Forall₂.cons ⟨fun hc => hc, fun ha => ha⟩ (ih _)
    · rw [if_neg h1]
      exact List.Forall₂.cons ⟨fun hc => hc, fun ha => ha⟩ (ih _)

/-- C2: one iteration of the solver's clamping loop (`solve_sweep`) that
does not accept (`any_clamped` = true) strictly increases the number of
clamped packs; the clamped count never exceeds the number of connected
packs n (so the loop, which runs at most n times by construction, always
reaches an iteration that accepts or runs out of active packs); and
position by position a clamped pack stays clamped and no pack returns to
the active set. -/
theorem C2_solver_clamp_progress (v_bus : ℚ) (is_equalization : Bool)
    (slots : List solver_slot_t) (residual : ℚ)
    (hwf : slots_wf slots)
    (hcont : (solve_sweep v_bus is_equalization slots residual).2.2 = true) :
    count_clamped slots
        < count_clamped (solve_sweep v_bus is_equalization slots residual).1
    ∧ count_clamped slots ≤ slots.length
    ∧ List.Forall₂ (fun s s' =>
        (s.is_clamped = true → s'.is_clamped = true)
        ∧ (s'.active = true → s.active = true)) slots
        (solve_sweep v_bus is_equalization slots residual).1 :=
  ⟨(solve_sweep_count v_bus is_equalization slots residual hwf).2 hcont,
   List.length_filter_le _ _,
   solve_sweep_clamp_mono v_bus is_equalization slots residual⟩

lemma pack_r_ex (c : corvus_controller_t) (h : c.pack = ex_pack_state) :
    pack_r c = 341 / 5000 := by
  simp only [pack_r, h]
  norm_num [ex_pack_state, corvus_pack_resistance, corvus_module_resistance,
    bilinear_interp, bracket_lo, bracket_go, clamp_d, r_temps, r_socs, r_table,
    BMS_NUM_MODULES]

lemma pack_ocv_ex (c : corvus_controller_t) (h : c.pack = ex_pack_state) :
    pack_ocv_total c = 11319 / 10 := by
  simp only [pack_ocv_total, h]
  norm_num [ex_pack_state, corvus_ocv_from_soc, linterp, bracket_lo, bracket_go,
    clamp_d, ocv_soc_bp, ocv_val_bp, BMS_NUM_CELLS_SERIES, BMS_NUM_MODULES,
    BMS_CELLS_PER_MODULE]

/-- C2 witness: a single well-formed slot whose 1 A charge envelope forces
a clamp at bus voltage 1200 V; that sweep reports `any_clamped` and the
clamped count rises from 0 to 1. -/
theorem C2_solver_clamp_progress_witness :
    slots_wf [mk_slot ex_ctrl_tiny]
    ∧ (solve_sweep 1200 false [mk_slot ex_ctrl_tiny] 200).2.2 = true
    ∧ count_clamped [mk_slot ex_ctrl_tiny]
        < count_clamped (solve_sweep 1200 false [mk_slot ex_ctrl_tiny] 200).1 := by
  have hwf : slots_wf [mk_slot ex_ctrl_tiny] := by
    intro s hs
    simp only [List.mem_singleton] at hs
    subst hs
    rfl
  have hr : pack_r (mk_slot ex_ctrl_tiny).ctrl = 341 / 5000 := pack_r_ex _ rfl
  have ho : pack_ocv_total (mk_slot ex_ctrl_tiny).ctrl = 11319 / 10 := pack_ocv_ex _ rfl
  have hc : (solve_sweep 1200 false [mk_slot ex_ctrl_tiny] 200).2.2 = true := by
    simp only [solve_sweep, hr, ho]
    norm_num [mk_slot, ex_ctrl_tiny, ex_ctrl]
  exact ⟨hwf, hc, (C2_solver_clamp_progress 1200 false _ 200 hwf hc).1⟩

end Corvus

namespace Corvus

lemma solve_sweep_wf (v : ℚ) (iseq : Bool) :
    ∀ (slots : List solver_slot_t) (residual : ℚ), slots_wf slots →
      slots_wf (solve_sweep v iseq slots residual).1 := by
  intro slots
  induction slots with
  | nil =>
    intro r _
    simp [solve_sweep, slots_wf]
  | cons s rest ih =>
    intro r hwf
    have hwfr := slots_wf_tail hwf
    have hwfs := slots_wf_head hwf
    simp only [solve_sweep]
    by_cases h1 : s.active = true
    · rw [if_pos h1]
      by_cases h2 : (v - pack_ocv_total s.ctrl) / pack_r s.ctrl > 0
          ∧ (v - pack_ocv_total s.ctrl) / pack_r s.ctrl > s.ctrl.charge_current_limit
      · rw [if_pos h2]
        intro x hx
        rcases List.mem_cons.mp hx with rfl | hx'
        · rfl
        · exact ih _ hwfr x hx'
      · rw [if_neg h2]
        by_cases h3 : (v - pack_ocv_total s.ctrl) / pack_r s.ctrl < 0
            ∧ -((v - pack_ocv_total s.ctrl) / pack_r s.ctrl)
                > s.ctrl.discharge_current_limit
        · rw [if_pos h3]
          intro x hx
          rcases List.mem_cons.mp hx with rfl | hx'
          · rfl
          · exact ih _ hwfr x hx'
        · rw [if_neg h3]
          intro x hx
          rcases List.mem_cons.mp hx with rfl | hx'
          · exact hwfs
          · exact ih _ hwfr x hx'
    · rw [if_neg h1]
      intro x hx
      rcases List.mem_cons.mp hx with rfl | hx'
      · exact hwfs
      · exact ih _ hwfr x hx'

lemma solve_sweep_clamp_wf (v : ℚ) (iseq : Bool) :
    ∀ (slots : List solver_slot_t) (residual : ℚ), slots_clamp_wf slots →
      slots_clamp_wf (solve_sweep v iseq slots residual).1 := by
  intro slots
  induction slots with
  | nil =>
    intro r _
    simp [solve_sweep, slots_clamp_wf]
  | cons s rest ih =>
    intro r hcwf
    have hcwfr : slots_clamp_wf rest :=
      fun x hx => hcwf x (List.mem_cons_of_mem _ hx)
    have hcwfs := hcwf s (List.mem_cons_self _ _)
    simp only [solve_sweep]
    by_cases h1 : s.active = true
    · rw [if_pos h1]
      by_cases h2 : (v - pack_ocv_total s.ctrl) / pack_r s.ctrl > 0
          ∧ (v - pack_ocv_total s.ctrl) / pack_r s.ctrl > s.ctrl.charge_current_limit
      · rw [if_pos h2]
        intro x hx
        rcases List.mem_cons.mp hx with rfl | hx'
        · exact fun _ => Or.inl rfl
        · exact ih _ hcwfr x hx'
      · rw [if_neg h2]
        by_cases h3 : (v - pack_ocv_total s.ctrl) / pack_r s.ctrl < 0
            ∧ -((v - pack_ocv_total s.ctrl) / pack_r s.ctrl)
                > s.ctrl.discharge_current_limit
        · rw [if_pos h3]
          intro x hx
          rcases List.mem_cons.mp hx with rfl | hx'
          · exact fun _ => Or.inr rfl
          · exact ih _ hcwfr x hx'
        · rw [if_neg h3]
          intro x hx
          rcases List.mem_cons.mp hx with rfl | hx'
          · exact hcwfs
          · exact ih _ hcwfr x hx'
    · rw [if_neg h1]
      intro x hx
      rcases List.mem_cons.mp hx with rfl | hx'
      · exact hcwfs
      · exact ih _ hcwfr x hx'

lemma solve_sweep_lim_wf (v : ℚ) (iseq : Bool) :
    ∀ (slots : List solver_slot_t) (residual : ℚ), slots_lim_wf slots →
      slots_lim_wf (solve_sweep v iseq slots residual).1 := by
  intro slots
  induction slots with
  | nil =>
    intro r _
    simp [solve_sweep, slots_lim_wf]
  | cons s rest ih =>
    intro r hlwf
    have hlwfr : slots_lim_wf rest :=
      fun x hx => hlwf x (List.mem_cons_of_mem _ hx)
    have hlwfs := hlwf s (List.mem_cons_self _ _)
    simp only [solve_sweep]
    by_cases h1 : s.active = true
    · rw [if_pos h1]
      by_cases h2 : (v - pack_ocv_total s.ctrl) / pack_r s.ctrl > 0
          ∧ (v - pack_ocv_total s.ctrl) / pack_r s.ctrl > s.ctrl.charge_current_limit
      · rw [if_pos h2]
        intro x hx
        rcases List.mem_cons.mp hx with rfl | hx'
        · exact hlwfs
        · exact ih _ hlwfr x hx'
      · rw [if_neg h2]
        by_cases h3 : (v - pack_ocv_total s.ctrl) / pack_r s.ctrl < 0
            ∧ -((v - pack_ocv_total s.ctrl) / pack_r s.ctrl)
                > s.ctrl.discharge_current_limit
        · rw [if_pos h3]
          intro x hx
          rcases List.mem_cons.mp hx with rfl | hx'
          · exact hlwfs
          · exact ih _ hlwfr x hx'
        · rw [if_neg h3]
          intro x hx
          rcases List.mem_cons.mp hx with rfl | hx'
          · exact hlwfs
          · exact ih _ hlwfr x hx'
    · rw [if_neg h1]
      intro x hx
      rcases List.mem_cons.mp hx with rfl | hx'
      · exact hlwfs
      · exact ih _ hlwfr x hx'

lemma solve_sweep_residual (v : ℚ) :
    ∀ (slots : List solver_slot_t) (residual : ℚ), slots_wf slots →
      (solve_sweep v false slots residual).2.1
          + clamped_sum (solve_sweep v false slots residual).1
        = residual + clamped_sum slots := by
  intro slots
  induction slots with
  | nil =>
    intro r _
    simp [solve_sweep, clamped_sum]
  | cons s rest ih =>
    intro r hwf
    have hwfr := slots_wf_tail hwf
    have hwfs := slots_wf_head hwf
    simp only [solve_sweep]
    by_cases h1 : s.active = true
    · rw [if_pos h1]
      have hsc := active_not_clamped hwfs h1
      by_cases h2 : (v - pack_ocv_total s.ctrl) / pack_r s.ctrl > 0
          ∧ (v - pack_ocv_total s.ctrl) / pack_r s.ctrl > s.ctrl.charge_current_limit
      · rw [if_pos h2]
        have H := ih (r - s.ctrl.charge_current_limit) hwfr
        simp only [clamped_sum_cons, hsc]
        norm_num
        linarith [H]
      · rw [if_neg h2]
        by_cases h3 : (v - pack_ocv_total s.ctrl) / pack_r s.ctrl < 0
            ∧ -((v - pack_ocv_total s.ctrl) / pack_r s.ctrl)
                > s.ctrl.discharge_current_limit
        · rw [if_pos h3]
          have H := ih (r + s.ctrl.discharge_current_limit) hwfr
          simp only [clamped_sum_cons, hsc]
          norm_num
          linarith [H]
        · rw [if_neg h3]
          have H := ih r hwfr
          simp only [clamped_sum_cons, hsc]
          norm_num
          linarith [H]
    · rw [if_neg h1]
      have hsc := inactive_clamped hwfs h1
      have H := ih r hwfr
      simp only [clamped_sum_cons, hsc]
      norm_num
      linarith [H]

lemma solve_sweep_noclamp (v : ℚ) (iseq : Bool) :
    ∀ (slots : List solver_slot_t) (residual : ℚ),
      (solve_sweep v iseq slots residual).2.2 = false →
      (solve_sweep v iseq slots residual).2.1 = residual
      ∧ List.Forall₂ (sweep_nc v) slots (solve_sweep v iseq slots residual).1 := by
  intro slots
  induction slots with
  | nil =>
    intro r _
    simp [solve_sweep]
  | cons s rest ih =>
    intro r hno
    simp only [solve_sweep] at hno ⊢
    by_cases h1 : s.active = true
    · rw [if_pos h1] at hno ⊢
      by_cases h2 : (v - pack_ocv_total s.ctrl) / pack_r s.ctrl > 0
          ∧ (v - pack_ocv_total s.ctrl) / pack_r s.ctrl > s.ctrl.charge_current_limit
      · rw [if_pos h2] at hno
        simp at hno
      · rw [if_neg h2] at hno ⊢
        by_cases h3 : (v - pack_ocv_total s.ctrl) / pack_r s.ctrl < 0
            ∧ -((v - pack_ocv_total s.ctrl) / pack_r s.ctrl)
                > s.ctrl.discharge_current_limit
        · rw [if_pos h3] at hno
          simp at hno
        · rw [if_neg h3] at hno ⊢
          obtain ⟨hres, hrel⟩ := ih r hno
          exact ⟨hres, List.Forall₂.cons (Or.inr ⟨h1, h2, h3, rfl⟩) hrel⟩
    · rw [if_neg h1] at hno ⊢
      obtain ⟨hres, hrel⟩ := ih r hno
      exact ⟨hres, List.Forall₂.cons (Or.inl ⟨Bool.not_eq_true _ |>.mp h1, rfl⟩) hrel⟩

lemma solve_final_not_accepted (iseq : Bool) (slots : List solver_slot_t)
    (residual : ℚ) : (solve_final iseq slots residual).accepted = false := by
  simp only [solve_final]
  split_ifs <;> rfl

end Corvus

namespace Corvus

lemma accept_currents_cons (iseq : Bool) (s : solver_slot_t)
    (rest : List solver_slot_t) :
    accept_currents iseq (s :: rest) = accept_one iseq s :: accept_currents iseq rest := rfl

lemma accept_one_clamped_current (s : solver_slot_t)
    (hc : s.is_clamped = true)
    (hval : s.clamped_val = s.ctrl.charge_current_limit
      ∨ s.clamped_val = -s.ctrl.discharge_current_limit)
    (hlim : 0 ≤ s.ctrl.charge_current_limit ∧ 0 ≤ s.ctrl.discharge_current_limit) :
    (accept_one false s).current = s.clamped_val := by
  simp only [accept_one, hc, if_true]
  norm_num
  split_ifs with hA hB
  · exfalso
    rcases hval with hv | hv <;> rw [hv] at hA <;> rcases hA with ⟨p, q⟩ <;>
      rw [show BMS_CURRENT_LIMIT_TOLERANCE = (1 / 100 : ℚ) from by
        norm_num [BMS_CURRENT_LIMIT_TOLERANCE]] at q
    · linarith [hlim.1]
    · linarith [hlim.2]
  · exfalso
    rcases hval with hv | hv <;> rw [hv] at hB <;> rcases hB with ⟨p, q⟩ <;>
      rw [show BMS_CURRENT_LIMIT_TOLERANCE = (1 / 100 : ℚ) from by
        norm_num [BMS_CURRENT_LIMIT_TOLERANCE]] at q
    · linarith [hlim.1]
    · linarith [hlim.2]
  · rfl

lemma accept_one_active_current (s : solver_slot_t) (i : ℚ)
    (hc : s.is_clamped = false)
    (hnc1 : ¬(i > 0 ∧ i > s.ctrl.charge_current_limit))
    (hnc2 : ¬(i < 0 ∧ -i > s.ctrl.discharge_current_limit))
    (hlim : 0 ≤ s.ctrl.charge_current_limit ∧ 0 ≤ s.ctrl.discharge_current_limit) :
    (accept_one false { s with current := i }).current = i := by
  simp only [accept_one, hc]
  norm_num
  split_ifs with hA hB
  · exfalso
    rcases hA with ⟨p, q⟩
    rw [show BMS_CURRENT_LIMIT_TOLERANCE = (1 / 100 : ℚ) from by
      norm_num [BMS_CURRENT_LIMIT_TOLERANCE]] at q
    exact hnc1 ⟨p, by linarith [hlim.1]⟩
  · exfalso
    rcases hB with ⟨p, q⟩
    rw [show BMS_CURRENT_LIMIT_TOLERANCE = (1 / 100 : ℚ) from by
      norm_num [BMS_CURRENT_LIMIT_TOLERANCE]] at q
    exact hnc2 ⟨p, by linarith [hlim.2]⟩
  · rfl

lemma accept_sum (v : ℚ) :
    ∀ {slots slots' : List solver_slot_t},
      List.Forall₂ (sweep_nc v) slots slots' →
      slots_wf slots → slots_clamp_wf slots → slots_lim_wf slots →
      current_sum (accept_currents false slots')
        = v * active_sum_g slots - active_sum_ocv_g slots + clamped_sum slots := by
  intro slots slots' hrel
  induction hrel with
  | nil =>
    intro _ _ _
    simp [accept_currents, current_sum, active_sum_g, active_sum_ocv_g, clamped_sum]
  | cons hab htail ih =>
    rename_i a b l₁ l₂
    intro hwf hcwf hlwf
    have hwfa := hwf a (List.mem_cons_self _ _)
    have hcwfa := hcwf a (List.mem_cons_self _ _)
    have hlwfa := hlwf a (List.mem_cons_self _ _)
    have ih' := ih (slots_wf_tail hwf)
      (fun x hx => hcwf x (List.mem_cons_of_mem _ hx))
      (fun x hx => hlwf x (List.mem_cons_of_mem _ hx))
    rw [accept_currents_cons, current_sum_cons, active_sum_g_cons,
      active_sum_ocv_g_cons, clamped_sum_cons, ih']
    rcases hab with ⟨ha, rfl⟩ | ⟨ha, hnc1, hnc2, rfl⟩
    · have hic := inactive_clamped hwfa (by rw [ha]; exact Bool.false_ne_true)
      rw [accept_one_clamped_current _ hic (hcwfa hic) hlwfa]
      simp only [ha, hic]
      norm_num
      ring
    · have hic := active_not_clamped hwfa ha
      rw [accept_one_active_current _ _ hic hnc1 hnc2 hlwfa]
      simp only [ha, hic]
      norm_num
      ring

end Corvus

namespace Corvus

lemma solve_loop_succ_false (slots : List solver_slot_t) (r : ℚ) (n : ℕ) :
    solve_loop false slots r (n + 1)
      = if active_sum_g slots < BMS_MIN_CONDUCTANCE then solve_final false slots r
        else
          let v := (active_sum_ocv_g slots + r) / active_sum_g slots
          let out := solve_sweep v false slots r
          if out.2.2 = false then
            { accepted := true, bus_voltage := some v
              slots := accept_currents false out.1 }
          else solve_loop false out.1 out.2.1 n := rfl

lemma solve_loop_kirchhoff :
    ∀ (fuel : ℕ) (slots : List solver_slot_t) (r : ℚ),
      slots_wf slots → slots_clamp_wf slots → slots_lim_wf slots →
      (solve_loop false slots r fuel).accepted = true →
      current_sum (solve_loop false slots r fuel).slots = r + clamped_sum slots := by
  intro fuel
  induction fuel with
  | zero =>
    intro slots r _ _ _ hacc
    rw [show solve_loop false slots r 0 = solve_final false slots r from rfl,
      solve_final_not_accepted] at hacc
    exact absurd hacc (by decide)
  | succ n ih =>
    intro slots r hwf hcwf hlwf hacc
    rw [solve_loop_succ_false] at hacc ⊢
    by_cases hg : active_sum_g slots < BMS_MIN_CONDUCTANCE
    · rw [if_pos hg] at hacc
      rw [solve_final_not_accepted] at hacc
      exact absurd hacc (by decide)
    · rw [if_neg hg] at hacc ⊢
      dsimp only at hacc ⊢
      by_cases hs : (solve_sweep ((active_sum_ocv_g slots + r) / active_sum_g slots)
          false slots r).2.2 = false
      · rw [if_pos hs] at hacc ⊢
        obtain ⟨hres, hrel⟩ := solve_sweep_noclamp
          ((active_sum_ocv_g slots + r) / active_sum_g slots) false slots r hs
        have hsum := accept_sum _ hrel hwf hcwf hlwf
        dsimp only
        rw [hsum]
        have hgne : active_sum_g slots ≠ 0 := by
          intro h0
          rw [h0] at hg
          exact hg (by norm_num [BMS_MIN_CONDUCTANCE])
        rw [div_mul_cancel₀ _ hgne]
        ring
      · rw [if_neg hs] at hacc ⊢
        have H := ih _ _ (solve_sweep_wf _ false slots r hwf)
          (solve_sweep_clamp_wf _ false slots r hcwf)
          (solve_sweep_lim_wf _ false slots r hlwf) hacc
        rw [H]
        exact solve_sweep_residual _ slots r hwf

end Corvus

namespace Corvus

lemma mk_slots_wf (conn : List corvus_controller_t) :
    slots_wf (conn.map mk_slot) := by
  intro s hs
  rcases List.mem_map.mp hs with ⟨c, _, rfl⟩
  rfl

lemma mk_slots_clamp_wf (conn : List corvus_controller_t) :
    slots_clamp_wf (conn.map mk_slot) := by
  intro s hs hc
  rcases List.mem_map.mp hs with ⟨c, _, rfl⟩
  simp [mk_slot] at hc

lemma mk_slots_lim_wf (conn : List corvus_controller_t)
    (h : ∀ c ∈ conn, 0 ≤ c.charge_current_limit ∧ 0 ≤ c.discharge_current_limit) :
    slots_lim_wf (conn.map mk_slot) := by
  intro s hs
  rcases List.mem_map.mp hs with ⟨c, hc, rfl⟩
  exact h c hc

lemma clamped_sum_mk (conn : List corvus_controller_t) :
    clamped_sum (conn.map mk_slot) = 0 := by
  induction conn with
  | nil => simp [clamped_sum]
  | cons c rest ih =>
    rw [List.map_cons, clamped_sum_cons]
    simp [mk_slot, ih]

lemma solve_currents_eq (acl adl : ℚ) (conn : List corvus_controller_t)
    (target : ℚ) :
    solve_currents acl adl conn target false
      = solve_loop false (conn.map mk_slot)
          (kirchhoff_clamped_target target acl adl) conn.length := rfl

/-- C1: in Kirchhoff mode, whenever the solver accepts a solution (which
requires a no-clamp sweep over a set of slots with at least one still
unclamped), the solved pack currents sum to the pre-clamped target
exactly, hence within the 1 % tolerance of `|I_target|`. -/
theorem C1_kirchhoff_sum (acl adl : ℚ) (conn : List corvus_controller_t)
    (target : ℚ)
    (hlim : ∀ c ∈ conn, 0 ≤ c.charge_current_limit ∧ 0 ≤ c.discharge_current_limit)
    (hacc : (solve_currents acl adl conn target false).accepted = true) :
    |current_sum (solve_currents acl adl conn target false).slots
        - kirchhoff_clamped_target target acl adl|
      ≤ BMS_CURRENT_LIMIT_TOLERANCE * |target| := by
  rw [solve_currents_eq] at hacc ⊢
  rw [solve_loop_kirchhoff conn.length _ _ (mk_slots_wf conn)
    (mk_slots_clamp_wf conn) (mk_slots_lim_wf conn hlim) hacc, clamped_sum_mk]
  simp only [add_zero, sub_self, abs_zero]
  have ht : (0 : ℚ) ≤ BMS_CURRENT_LIMIT_TOLERANCE := by
    norm_num [BMS_CURRENT_LIMIT_TOLERANCE]
  exact mul_nonneg ht (abs_nonneg _)

end Corvus

namespace Corvus

/-- C1 witness: a single connected pack resting at its OCV with a zero
current request; the solver accepts on the first sweep and the solved
currents meet the tolerance bound. -/
theorem C1_kirchhoff_sum_witness :
    (solve_currents 100 100 [ex_ctrl] 0 false).accepted = true
    ∧ |current_sum (solve_currents 100 100 [ex_ctrl] 0 false).slots
          - kirchhoff_clamped_target 0 100 100|
        ≤ BMS_CURRENT_LIMIT_TOLERANCE * |(0 : ℚ)| := by
  have hlim : ∀ c ∈ [ex_ctrl],
      0 ≤ c.charge_current_limit ∧ 0 ≤ c.discharge_current_limit := by
    intro c hc
    simp only [List.mem_singleton] at hc
    subst hc
    norm_num [ex_ctrl]
  have hr : pack_r (mk_slot ex_ctrl).ctrl = 341 / 5000 := pack_r_ex _ rfl
  have ho : pack_ocv_total (mk_slot ex_ctrl).ctrl = 11319 / 10 := pack_ocv_ex _ rfl
  have hK : kirchhoff_clamped_target 0 100 100 = 0 := by
    norm_num [kirchhoff_clamped_target]
  have hG : active_sum_g [mk_slot ex_ctrl] = 5000 / 341 := by
    rw [active_sum_g_cons, if_pos (show (mk_slot ex_ctrl).active = true from rfl),
      show active_sum_g [] = 0 from by simp [active_sum_g], hr]
    norm_num
  have hO : active_sum_ocv_g [mk_slot ex_ctrl] = 5659500 / 341 := by
    rw [active_sum_ocv_g_cons, if_pos (show (mk_slot ex_ctrl).active = true from rfl),
      show active_sum_ocv_g [] = 0 from by simp [active_sum_ocv_g], hr, ho]
    norm_num
  have hsw : (solve_sweep (11319 / 10 : ℚ) false [mk_slot ex_ctrl] 0).2.2 = false := by
    simp only [solve_sweep, hr, ho]
    norm_num [mk_slot, ex_ctrl]
  have hacc : (solve_currents 100 100 [ex_ctrl] 0 false).accepted = true := by
    rw [solve_currents_eq, hK,
      show ([ex_ctrl] : List corvus_controller_t).length = 0 + 1 from rfl,
      solve_loop_succ_false,
      show List.map mk_slot [ex_ctrl] = [mk_slot ex_ctrl] from rfl, hG, hO,
      if_neg (show ¬((5000 : ℚ) / 341 < BMS_MIN_CONDUCTANCE) from by
        norm_num [BMS_MIN_CONDUCTANCE])]
    dsimp only
    rw [show ((5659500 : ℚ) / 341 + 0) / (5000 / 341) = 11319 / 10 from by norm_num,
      if_pos hsw]
  exact ⟨hacc, C1_kirchhoff_sum 100 100 [ex_ctrl] 0 hlim hacc⟩

end Corvus
